import Mathlib

/-!
Shallow embedding of the execution and context-management core of the
LiteRT-LM runtime, translated from
`runtime/framework/resource_management/resource_manager.cc` and
`runtime/core/session_advanced.cc`, together with proofs checking the
natural-language specification against it.

Conventions of the embedding:
* C++ `absl::Status` / `absl::StatusOr` returns become `Except Err`;
  an early `return absl::...Error(...)` is `.error e`, which also models
  that the function left the mutated-by-reference state untouched when
  the C++ code returns before any mutation.
* Machine `int` values (current steps, token counts) become `Int`.
* Token-id tensors of shape `[1, n]` become `List Int` (the runtime only
  supports batch 1 on this path; the batch-size check is therefore
  implicit in the modelling).
* Reference identity of `shared_ptr<SharedProcessedContext>` cells is
  modelled by a numeric cell id `spcId` into an explicit store
  `spcStore : Nat → Option ProcessedContext`; reference identity of
  `std::shared_ptr<ContextHandler>` is modelled by numeric handler ids.
* Calls forwarded to the wrapped executor are recorded as an explicit
  trace (`ExecCall` / `SwitchEvent`) so that theorems can speak about
  which underlying executor operations ran and with which arguments.
-/

namespace LiteRTLM

/-- The absl status codes that appear on the modelled paths. -/
inductive Err where
  | invalidArgument
  | failedPrecondition
  | internal
  | deadlineExceeded
  deriving DecidableEq, Repr

abbrev Token := Int

abbrev TaskId := Nat

/-- `RuntimeState` from the executor contract: the logical current step and
whether a decode has run. -/
structure RuntimeState where
  current_step : Int
  ran_decode : Bool
  deriving DecidableEq, Repr

/-- `RuntimeConfig` as built in `ResourceManager::CreateContextHandler`. -/
structure RuntimeConfig where
  output_heads : Nat
  tokens_per_decode : Nat
  deriving DecidableEq, Repr

/-- `ProcessedContext`: the token list absorbed into the KV cache plus the
LoRA id; the opaque per-layer cache state is not observable at this layer. -/
structure ProcessedContext where
  tokens : List Token
  lora_id : Option Nat
  deriving DecidableEq, Repr

/-- Audio contexts are opaque values at this layer; `Clone()` is a value
copy. -/
abbrev AudioContext := Nat

/-- `ContextHandler`: a reference to a `SharedProcessedContext` cell (by id),
optionally owned `RuntimeConfig` and `RuntimeState`, and an optional audio
context. -/
structure ContextHandler where
  spcId : Nat
  runtime_config : Option RuntimeConfig
  runtime_state : Option RuntimeState
  audio_context : Option AudioContext
  deriving DecidableEq, Repr

/-- The observable state of the external `LlmExecutor`: its processed token
list, current step, decode flag, runtime config and LoRA id. -/
structure LlmExec where
  tokens : List Token
  step : Int
  ran_decode : Bool
  config : RuntimeConfig
  lora_id : Option Nat
  deriving DecidableEq, Repr

/-- Calls the `LockedLlmExecutor` wrapper forwards to the wrapped executor.
For `prefill`, `params_step` is the `ExecutorPrefillParams` current step,
with `-1` meaning unset (the C++ default). -/
inductive ExecCall where
  | prefill (tokens : List Token) (params_step : Int)
  | setCurrentStep (s : Int)
  | decode
  deriving DecidableEq, Repr

/-- State that `LockedLlmExecutor` operates on: the wrapped executor, the
bound current handler (absent for session-less acquisition), the store of
shared processed-context cells, a fresh-cell counter, and the logical steps
of the other handlers registered on the bound handler's shared cell. -/
structure LockedState where
  exec : LlmExec
  handler : Option ContextHandler
  spcStore : Nat → Option ProcessedContext
  nextSpcId : Nat
  siblingSteps : List Int

/-- Longest common matching length of two token lists. -/
def matchLen : List Token → List Token → Nat
  | p :: ps, q :: qs => if p = q then matchLen ps qs + 1 else 0
  | _, _ => 0

/-- Modelled from the spec: `RemoveMatchingTokens`
(resource_manager_utils.cc, not under src/). "Compute the longest `k` such
that `P[s..s+k] == I[0..k]` (but not exceeding `|P|-s` or `|I|`). Advance s
by k and drop the first k tokens of `I`." -/
def RemoveMatchingTokens (processed : List Token) (input_ids : List Token)
    (current_step : Int) : List Token × Int :=
  let k := matchLen (processed.drop current_step.toNat) input_ids
  (input_ids.drop k, current_step + k)

/-- Modelled from the spec: `SharedProcessedContext::LongestHandlerTimeStep`
(context_handler.cc, not under src/). The longest logical time step over all
handlers registered on this shared cell; the currently loaded handler's step
is read out of the executor, the suspended siblings contribute their own
recorded steps. -/
def LongestHandlerTimeStep (sibling_steps : List Int) (executor_step : Int) : Int :=
  sibling_steps.foldl max executor_step

/-- Modelled from the spec: the external `LlmExecutor::Prefill` contract
("Prefill: absorbing a batch of new tokens into the KV cache"): the tokens
are absorbed at the given current step (the executor's own step when the
params step is the unset sentinel `-1`), which advances past them. -/
def execPrefill (e : LlmExec) (toks : List Token) (params_step : Int) : LlmExec :=
  let s0 : Int := if params_step ≠ -1 then params_step else e.step
  { e with
    tokens := e.tokens.take s0.toNat ++ toks
    step := s0 + toks.length }

/-- `SaveProcessedContextAndSeparateLoadedHandler`
(resource_manager.cc:62-94): refuse (Internal) when the handler assumed to
be loaded still owns a RuntimeConfig, a RuntimeState, or a non-empty
processed context; otherwise clone the executor's context, store its
processed context into the previously shared cell, and re-point the handler
at a fresh empty cell. On the error path the C++ code returns before any
mutation, which the `Except` encoding reflects by discarding the state. -/
def SaveProcessedContextAndSeparateLoadedHandler (st : LockedState)
    (h : ContextHandler) : Except Err (LockedState × ContextHandler) :=
  if h.runtime_config.isSome || h.runtime_state.isSome ||
      (st.spcStore h.spcId).isSome then
    .error .internal
  else
    let cloned : ProcessedContext :=
      { tokens := st.exec.tokens, lora_id := st.exec.lora_id }
    let freshId := st.nextSpcId
    let store2 : Nat → Option ProcessedContext := fun j =>
      if j = freshId then none
      else if j = h.spcId then some cloned
      else st.spcStore j
    let h2 : ContextHandler := { h with spcId := freshId }
    .ok ({ st with
            spcStore := store2
            nextSpcId := freshId + 1
            handler := some h2 }, h2)

/-- The effective current step of a bound prefill: the params step when set
(not `-1`), else the executor's current step, clamped down to the
processed-token count (resource_manager.cc:203-220). -/
def effectiveStep (e : LlmExec) (params_step : Int) : Int :=
  let s0 : Int := if params_step ≠ -1 then params_step else e.step
  let c : Int := e.tokens.length
  if s0 > c then c else s0

/-- `LockedLlmExecutor::Prefill` (resource_manager.cc:187-336): the
prefix-match optimization and copy-on-write check in front of the wrapped
executor's prefill. Only the text-token path is modelled (vision and audio
embeddings are forwarded unchanged by the source and carry no step data). -/
def LockedLlmExecutor.Prefill (st : LockedState) (inputs : List Token)
    (params_step : Int) : Except Err (LockedState × List ExecCall) :=
  match st.handler with
  | none =>
      .ok ({ st with exec := execPrefill st.exec inputs params_step },
        [.prefill inputs params_step])
  | some h =>
      if inputs.length = 0 then .ok (st, [])
      else
        let token_count : Int := st.exec.tokens.length
        let step1 : Int := effectiveStep st.exec params_step
        if token_count = step1 then
          .ok ({ st with exec := execPrefill st.exec inputs params_step },
            [.prefill inputs params_step])
        else
          let r := RemoveMatchingTokens st.exec.tokens inputs step1
          let input2 := r.1
          let step2 := r.2
          let step3 : Int := if step2 > token_count then token_count else step2
          if input2.isEmpty then
            .ok ({ st with exec := { st.exec with step := step3 } },
              [.setCurrentStep step3])
          else if token_count = step3 then
            .ok ({ st with exec := execPrefill st.exec input2 step3 },
              [.prefill input2 step3])
          else
            let largest := LongestHandlerTimeStep st.siblingSteps st.exec.step
            let cow : Except Err LockedState :=
              if largest ≠ step3 then
                (SaveProcessedContextAndSeparateLoadedHandler st h).map
                  (fun p => p.1)
              else .ok st
            match cow with
            | .error e => .error e
            | .ok st2 =>
                let st3 := { st2 with exec := { st2.exec with step := step3 } }
                .ok ({ st3 with exec := execPrefill st3.exec input2 step3 },
                  [.setCurrentStep step3, .prefill input2 step3])

/-- `LockedLlmExecutor::MaybeTruncateProcessedTokens`
(resource_manager.cc:425-456): the decode-time copy-on-write check. -/
def LockedLlmExecutor.MaybeTruncateProcessedTokens (st : LockedState) :
    Except Err (LockedState × List ExecCall) :=
  match st.handler with
  | none => .ok (st, [])
  | some h =>
      let current_step := st.exec.step
      let token_count : Int := st.exec.tokens.length
      if token_count = current_step then .ok (st, [])
      else
        let largest := LongestHandlerTimeStep st.siblingSteps st.exec.step
        let cow : Except Err LockedState :=
          if largest ≠ current_step then
            (SaveProcessedContextAndSeparateLoadedHandler st h).map
              (fun p => p.1)
          else .ok st
        match cow with
        | .error e => .error e
        | .ok st2 =>
            .ok ({ st2 with exec := { st2.exec with step := current_step } },
              [.setCurrentStep current_step])

/-- `LockedLlmExecutor::Decode` (resource_manager.cc:342-346): the
copy-on-write check followed by the wrapped executor's decode.  The decode
itself is opaque at this layer. -/
def LockedLlmExecutor.Decode (st : LockedState) :
    Except Err (LockedState × List ExecCall) :=
  (LockedLlmExecutor.MaybeTruncateProcessedTokens st).map
    (fun p => (p.1, p.2 ++ [.decode]))

/-- The `ResourceManager`'s state: the executor, the optional audio
executor context, the registry of context handlers (by handler id), the id
of the currently active handler, and the shared processed-context cells. -/
structure RMState where
  exec : LlmExec
  audioExec : Option AudioContext
  handlers : Nat → ContextHandler
  currentHandlerId : Option Nat
  spcStore : Nat → Option ProcessedContext
  nextSpcId : Nat

/-- Point update of the handler registry. -/
def updH (f : Nat → ContextHandler) (i : Nat) (h : ContextHandler) :
    Nat → ContextHandler :=
  fun j => if j = i then h else f j

/-- Point update of the shared processed-context store. -/
def updS (f : Nat → Option ProcessedContext) (i : Nat)
    (v : Option ProcessedContext) : Nat → Option ProcessedContext :=
  fun j => if j = i then v else f j

/-- Operations `AcquireExecutorWithContextHandler` performs on the executor
and the audio executor.  `createNewContext` stands for
`CreateNewContext` followed by `RestoreContext` of the created empty
context; `restoreContext` for `RestoreContext` of the assembled
`LlmContext`. -/
inductive SwitchEvent where
  | updateRuntimeConfig (config : RuntimeConfig)
  | updateRuntimeState (state : RuntimeState)
  | createNewContext (lora_id : Option Nat) (config : RuntimeConfig)
  | restoreContext (pc : Option ProcessedContext) (config : RuntimeConfig)
      (state : RuntimeState)
  | audioSnapshot (ctx : AudioContext)
  | audioRestore (ctx : AudioContext)
  deriving DecidableEq, Repr

/-- The clamp applied to an incoming runtime state before it is installed
into the executor (resource_manager.cc:717-729 and 770-782): clamp a step
above the token count down to the count, then a negative step up to 0. -/
def clampRS (rs : RuntimeState) (count : Int) : RuntimeState :=
  let rs1 := if rs.current_step > count then { rs with current_step := count }
    else rs
  if rs1.current_step < 0 then { rs1 with current_step := 0 } else rs1

/-- The same-processed-context arm of the context switch
(resource_manager.cc:698-736): save the executor's runtime config and state
into the outgoing handler, then install the incoming handler's config and
clamped state into the executor. -/
def AcquireSameSpcSwitch (st : RMState) (curId newId : Nat)
    (new_cfg : RuntimeConfig) (new_rs0 : RuntimeState) :
    RMState × List SwitchEvent :=
  let newH := st.handlers newId
  let cur := st.handlers curId
  let handlers1 := updH st.handlers curId
    { cur with
      runtime_config := some st.exec.config
      runtime_state := some ⟨st.exec.step, st.exec.ran_decode⟩ }
  let active_count : Int := st.exec.tokens.length
  let rs2 := clampRS new_rs0 active_count
  let exec1 := { st.exec with
    config := new_cfg
    step := rs2.current_step
    ran_decode := rs2.ran_decode }
  let handlers2 := updH handlers1 newId
    { newH with runtime_config := none, runtime_state := none }
  ({ st with exec := exec1, handlers := handlers2 },
   [.updateRuntimeConfig new_cfg, .updateRuntimeState rs2])

/-- Saving the outgoing handler on the different-processed-context arm
(resource_manager.cc:741-757): clone the executor's context and hand its
three parts back to the outgoing handler and its shared cell. -/
def AcquireSaveCurrent (st : RMState) (curId : Nat) : RMState :=
  let cur := st.handlers curId
  { st with
    handlers := updH st.handlers curId
      { cur with
        runtime_config := some st.exec.config
        runtime_state := some ⟨st.exec.step, st.exec.ran_decode⟩ }
    spcStore := updS st.spcStore cur.spcId
      (some ⟨st.exec.tokens, st.exec.lora_id⟩) }

/-- Restoring the incoming handler on the different-processed-context arm
(resource_manager.cc:759-814): retrieve the handler's processed context,
clamp the runtime state, then either create-and-restore a fresh empty
context followed by a runtime-state update, or restore the assembled
`LlmContext`. -/
def targetTokenCount (pc : Option ProcessedContext) : Int :=
  match pc with
  | none => 0
  | some p => p.tokens.length

def AcquireRestoreNew (st1 : RMState) (newId : Nat) (new_cfg : RuntimeConfig)
    (new_rs0 : RuntimeState) : RMState × List SwitchEvent :=
  let newH := st1.handlers newId
  let new_pc := st1.spcStore newH.spcId
  let store2 := updS st1.spcStore newH.spcId none
  let target_count : Int := targetTokenCount new_pc
  let rs2 := clampRS new_rs0 target_count
  let is_fresh := target_count == 0 && rs2.current_step == 0 &&
    !rs2.ran_decode
  let lora := new_pc.bind (fun pc => pc.lora_id)
  let handlers2 := updH st1.handlers newId
    { newH with runtime_config := none, runtime_state := none }
  if is_fresh then
    ({ st1 with
        exec := { tokens := []
                  step := rs2.current_step
                  ran_decode := rs2.ran_decode
                  config := new_cfg
                  lora_id := lora }
        handlers := handlers2
        spcStore := store2 },
     [.createNewContext lora new_cfg, .updateRuntimeState rs2])
  else
    ({ st1 with
        exec := { tokens := (new_pc.map (fun pc => pc.tokens)).getD []
                  step := rs2.current_step
                  ran_decode := rs2.ran_decode
                  config := new_cfg
                  lora_id := lora }
        handlers := handlers2
        spcStore := store2 },
     [.restoreContext new_pc new_cfg rs2])

/-- The snapshot half of the audio parallel step
(resource_manager.cc:820-828): when the outgoing handler has an audio
context, acquire the audio executor (failing when there is none), clone its
current context and save it into the outgoing handler. -/
def AcquireAudioSnapshot (curId : Nat) (stc : RMState)
    (evs : List SwitchEvent) : Except Err (RMState × List SwitchEvent) :=
  if ((stc.handlers curId).audio_context).isSome then
    match stc.audioExec with
    | none => .error .invalidArgument
    | some a =>
      .ok ({ stc with handlers := (updH stc.handlers curId
              { stc.handlers curId with audio_context := some a }) },
        evs ++ [.audioSnapshot a])
  else .ok (stc, evs)

/-- The restore half of the audio parallel step
(resource_manager.cc:829-837): when the incoming handler has an audio
context, acquire the audio executor and restore a clone of that context
into it. -/
def AcquireAudioRestore (newH_audio : Option AudioContext) (std1 : RMState)
    (evs1 : List SwitchEvent) : Except Err (RMState × List SwitchEvent) :=
  match newH_audio with
  | some na =>
    match std1.audioExec with
    | none => .error .invalidArgument
    | some _ =>
      .ok ({ std1 with audioExec := some na }, evs1 ++ [.audioRestore na])
  | none => .ok (std1, evs1)

/-- The audio parallel step of the context switch
(resource_manager.cc:817-838): only when a handler was previously active,
snapshot the audio executor's context into the outgoing handler when it has
an audio context, and restore a clone of the incoming handler's audio
context when it has one. -/
def AcquireAudioStep (ocur : Option Nat) (newH_audio : Option AudioContext)
    (stc : RMState) (evs : List SwitchEvent) :
    Except Err (RMState × List SwitchEvent) :=
  match ocur with
  | none => .ok (stc, evs)
  | some curId =>
    match AcquireAudioSnapshot curId stc evs with
    | .error e => .error e
    | .ok (std1, evs1) => AcquireAudioRestore newH_audio std1 evs1

/-- `ResourceManager::AcquireExecutorWithContextHandler`
(resource_manager.cc:636-855).  Returns the updated manager state and the
trace of executor/audio-executor operations. -/
def ResourceManager.AcquireExecutorWithContextHandler (st : RMState)
    (newId : Nat) : Except Err (RMState × List SwitchEvent) :=
  let newH := st.handlers newId
  if st.currentHandlerId = some newId then
    -- same handler: no swap
    .ok (st, [])
  else
    match newH.runtime_config, newH.runtime_state with
    | some new_cfg, some new_rs0 =>
      let core : RMState × List SwitchEvent :=
        match st.currentHandlerId with
        | some curId =>
          if (st.handlers curId).spcId = newH.spcId then
            AcquireSameSpcSwitch st curId newId new_cfg new_rs0
          else
            AcquireRestoreNew (AcquireSaveCurrent st curId) newId new_cfg
              new_rs0
        | none => AcquireRestoreNew st newId new_cfg new_rs0
      match AcquireAudioStep st.currentHandlerId newH.audio_context core.1
          core.2 with
      | .error e => .error e
      | .ok (std2, evs2) =>
          .ok ({ std2 with currentHandlerId := some newId }, evs2)
    | _, _ => .error .internal

/-- `ResourceManager::CloneContextHandler` (resource_manager.cc:567-620):
runtime config and state come from the source handler when it owns both,
otherwise from the executor provided the source is the active handler; the
shared processed-context cell is referenced, not copied; the audio context
is cloned.  The manager's state is read, never modified. -/
def ResourceManager.CloneContextHandler (st : RMState) (srcId : Nat) :
    Except Err ContextHandler :=
  let src := st.handlers srcId
  let cfg_rs : Except Err (RuntimeConfig × RuntimeState) :=
    match src.runtime_config, src.runtime_state with
    | some cfg, some rs => .ok (cfg, rs)
    | _, _ =>
      if st.currentHandlerId = some srcId then
        .ok (st.exec.config, ⟨st.exec.step, st.exec.ran_decode⟩)
      else .error .internal
  match cfg_rs with
  | .error e => .error e
  | .ok (cfg, rs) =>
      .ok { spcId := src.spcId
            runtime_config := some cfg
            runtime_state := some rs
            audio_context := src.audio_context }

/-! ## Session layer (`runtime/core/session_advanced.cc`) -/

/-- Task states of the execution manager. -/
inductive TaskState where
  | created
  | queued
  | running
  | done
  | failed
  | cancelled
  | depFailed
  | depCancelled
  deriving DecidableEq, Repr

/-- `IsTaskEndState`. -/
def IsTaskEndState : TaskState → Bool
  | .done | .failed | .cancelled | .depFailed | .depCancelled => true
  | _ => false

/-- Session states of `SessionAdvanced`. -/
inductive SessionState where
  | fresh
  | prefilled
  | decoded
  deriving DecidableEq, Repr

/-- What a task callback is invoked with: a non-OK status, or `Responses`
carrying a task state. -/
inductive CbOutcome where
  | errorStatus
  | responses (ts : TaskState)
  deriving DecidableEq, Repr

/-- The per-session state the claims are about. -/
structure SessionSt where
  session_state : SessionState
  last_task_ids : List TaskId
  deriving DecidableEq, Repr

/-- A task as submitted to the execution manager: its id and the dependency
set it was given. -/
structure SubmittedTask where
  id : TaskId
  deps : List TaskId
  deriving DecidableEq, Repr

/-- Effect on `last_task_ids_` of the callback `RunPrefill` wraps around the
prefill task (session_advanced.cc:100-128). -/
def SessionAdvanced.RunPrefillSyncCallback (last : List TaskId)
    (o : CbOutcome) : List TaskId :=
  match o with
  | .errorStatus => []
  | .responses ts =>
    if ts = .cancelled || ts = .depCancelled then []
    else if ts = .failed || ts = .depFailed then []
    else last

/-- Effect on `last_task_ids_` of the synchronous decode callback
(session_advanced.cc:206-235). -/
def SessionAdvanced.RunDecodeSyncCallback (last : List TaskId)
    (o : CbOutcome) : List TaskId :=
  match o with
  | .errorStatus => []
  | .responses ts =>
    if ts = .cancelled || ts = .depCancelled then []
    else if ts = .failed || ts = .depFailed then []
    else last

/-- Effect on `last_task_ids_` of the callback `RunDecodeAsync` wraps around
the caller's callback (session_advanced.cc:332-348). -/
def SessionAdvanced.RunDecodeAsyncWrappedCallback (last : List TaskId)
    (o : CbOutcome) : List TaskId :=
  match o with
  | .errorStatus => []
  | .responses ts =>
    if ts = .cancelled || ts = .depCancelled || ts = .failed ||
        ts = .depFailed then []
    else last

/-- Effect on `last_task_ids_` of the prefill callback installed by
`GenerateContentStream` (session_advanced.cc:428-455). -/
def SessionAdvanced.GenerateContentStreamPrefillCallback (last : List TaskId)
    (o : CbOutcome) : List TaskId :=
  match o with
  | .errorStatus => []
  | .responses ts =>
    if ts = .done then last
    else if IsTaskEndState ts then []
    else last

/-- `SessionAdvanced::RunPrefillAsync` (session_advanced.cc:134-184), seen
from the session bookkeeping: the prefill task is enqueued depending on the
current `last_task_ids_`, the state moves to Prefilled, `last_task_ids_`
becomes the singleton of the new task.  Input preprocessing is opaque at
this layer; `manager_alive` models the weak execution-manager reference. -/
def SessionAdvanced.RunPrefillAsync (st : SessionSt) (manager_alive : Bool)
    (task_id : TaskId) : Except Err (SessionSt × SubmittedTask) :=
  if !manager_alive then .error .failedPrecondition
  else
    .ok ({ session_state := .prefilled, last_task_ids := [task_id] },
      { id := task_id, deps := st.last_task_ids })

/-- `SessionAdvanced::RunDecodeAsync` (session_advanced.cc:285-360):
the Prefilled-state guard, then (with templating on and a non-empty
templated tail) the inserted tail prefill task, then the decode task.
`templated_tail_nonempty` models whether `ApplyPromptTemplates` produced
content for the end-of-turn flush. -/
def SessionAdvanced.RunDecodeAsync (st : SessionSt) (manager_alive : Bool)
    (apply_prompt_template : Bool) (templated_tail_nonempty : Bool)
    (tail_task_id : TaskId) (decode_task_id : TaskId) :
    Except Err (SessionSt × List SubmittedTask) :=
  if st.session_state ≠ .prefilled then .error .internal
  else if !manager_alive then .error .failedPrecondition
  else
    let withTail := apply_prompt_template && templated_tail_nonempty
    let last1 := if withTail then [tail_task_id] else st.last_task_ids
    let tasks1 : List SubmittedTask :=
      if withTail then [{ id := tail_task_id, deps := st.last_task_ids }]
      else []
    .ok ({ session_state := .decoded, last_task_ids := [decode_task_id] },
      tasks1 ++ [{ id := decode_task_id, deps := last1 }])

/-- `SessionAdvanced::RunTextScoringAsync` (session_advanced.cc:388-409):
single-batch only; the scoring task depends on `last_task_ids_`, but neither
`last_task_ids_` nor the session state is updated. -/
def SessionAdvanced.RunTextScoringAsync (st : SessionSt) (manager_alive : Bool)
    (target_text_size : Nat) (task_id : TaskId) :
    Except Err (SessionSt × SubmittedTask) :=
  if target_text_size ≠ 1 then .error .invalidArgument
  else if !manager_alive then .error .failedPrecondition
  else .ok (st, { id := task_id, deps := st.last_task_ids })

/-- `SessionAdvanced::CloneAsync` (session_advanced.cc:498-523): the clone
task depends on the parent's `last_task_ids_`; afterwards both the parent's
and the new session's `last_task_ids_` are the singleton of the clone task,
and the new session starts in the parent's session state.  Returns
(parent, clone, task). -/
def SessionAdvanced.CloneAsync (st : SessionSt) (manager_alive : Bool)
    (task_id : TaskId) : Except Err (SessionSt × SessionSt × SubmittedTask) :=
  if !manager_alive then .error .failedPrecondition
  else
    .ok ({ st with last_task_ids := [task_id] },
      ({ session_state := st.session_state, last_task_ids := [task_id] },
       { id := task_id, deps := st.last_task_ids }))

/-! ## Projections used in theorem statements -/

/-- The call trace of a locked-executor operation, `none` on error. -/
def resCalls (r : Except Err (LockedState × List ExecCall)) :
    Option (List ExecCall) :=
  match r with
  | .ok p => some p.2
  | .error _ => none

/-- The executor's current step after a locked-executor operation. -/
def resStep (r : Except Err (LockedState × List ExecCall)) : Option Int :=
  match r with
  | .ok p => some p.1.exec.step
  | .error _ => none

/-- The executor's processed tokens after a locked-executor operation. -/
def resTokens (r : Except Err (LockedState × List ExecCall)) :
    Option (List Token) :=
  match r with
  | .ok p => some p.1.exec.tokens
  | .error _ => none

/-- The bound handler after a locked-executor operation. -/
def resHandler (r : Except Err (LockedState × List ExecCall)) :
    Option ContextHandler :=
  match r with
  | .ok p => p.1.handler
  | .error _ => none

/-- A shared cell's content after a locked-executor operation. -/
def resSpcAt (r : Except Err (LockedState × List ExecCall)) (i : Nat) :
    Option (Option ProcessedContext) :=
  match r with
  | .ok p => some (p.1.spcStore i)
  | .error _ => none

/-- The prefill calls within a call trace. -/
def prefillCallsOf (calls : List ExecCall) : List ExecCall :=
  calls.filter fun c =>
    match c with
    | .prefill _ _ => true
    | _ => false

/-- The event trace of a context switch, `none` on error. -/
def swEvents (r : Except Err (RMState × List SwitchEvent)) :
    Option (List SwitchEvent) :=
  match r with
  | .ok p => some p.2
  | .error _ => none

/-- The executor's step after a context switch. -/
def swStep (r : Except Err (RMState × List SwitchEvent)) : Option Int :=
  match r with
  | .ok p => some p.1.exec.step
  | .error _ => none

/-- The audio executor's context after a context switch. -/
def swAudioExec (r : Except Err (RMState × List SwitchEvent)) :
    Option (Option AudioContext) :=
  match r with
  | .ok p => some p.1.audioExec
  | .error _ => none

/-- A handler after a context switch. -/
def swHandlerAt (r : Except Err (RMState × List SwitchEvent)) (i : Nat) :
    Option ContextHandler :=
  match r with
  | .ok p => some (p.1.handlers i)
  | .error _ => none

/-- Statement-side restatement of the claims' words (not a source
translation): the current step after advancing by the longest matching
length. -/
def specAdvancedStep (e : LlmExec) (inputs : List Token) (ps : Int) : Int :=
  effectiveStep e ps +
    matchLen (e.tokens.drop (effectiveStep e ps).toNat) inputs

/-- Statement-side restatement of the claims' words (not a source
translation): the input remaining after dropping the longest matching
front. -/
def specRemainingTail (e : LlmExec) (inputs : List Token) (ps : Int) :
    List Token :=
  inputs.drop (matchLen (e.tokens.drop (effectiveStep e ps).toNat) inputs)

/-! ## Lemmas about the matching length -/

theorem matchLen_le_left (p q : List Token) : matchLen p q ≤ p.length := by
  induction p generalizing q with
  | nil => simp [matchLen]
  | cons a p ih =>
    cases q with
    | nil => simp [matchLen]
    | cons b q =>
      by_cases hab : a = b <;> simp [matchLen, hab]
      exact ih q

theorem matchLen_le_right (p q : List Token) : matchLen p q ≤ q.length := by
  induction p generalizing q with
  | nil => simp [matchLen]
  | cons a p ih =>
    cases q with
    | nil => simp [matchLen]
    | cons b q =>
      by_cases hab : a = b <;> simp [matchLen, hab]
      exact ih q

/-- Below the matching length the two lists agree. -/
theorem matchLen_agrees (p q : List Token) (j : Nat) (hj : j < matchLen p q) :
    p.getD j 0 = q.getD j 0 := by
  induction p generalizing q j with
  | nil => simp [matchLen] at hj
  | cons a p ih =>
    cases q with
    | nil => simp [matchLen] at hj
    | cons b q =>
      by_cases hab : a = b
      · cases j with
        | zero => simpa using hab
        | succ j =>
          simp only [matchLen, hab, if_pos] at hj
          simpa using ih q j (by omega)
      · simp [matchLen, hab] at hj

/-- The matching length is maximal: when it stops inside both lists they
disagree there. -/
theorem matchLen_maximal (p q : List Token)
    (h1 : matchLen p q < p.length) (h2 : matchLen p q < q.length) :
    p.getD (matchLen p q) 0 ≠ q.getD (matchLen p q) 0 := by
  induction p generalizing q with
  | nil => simp at h1
  | cons a p ih =>
    cases q with
    | nil => simp at h2
    | cons b q =>
      by_cases hab : a = b
      · simp only [matchLen, hab, if_pos] at h1 h2 ⊢
        simpa using ih q (by simpa using h1) (by simpa using h2)
      · simp [matchLen, hab]

/-! ## C1 -/

/-- C1: for every Prefill through an executor handle bound to a context
handler, when the effective current step `s` (after clamping to the
processed-token count) is strictly less than the processed-token count: the
longest matching front of the input is dropped and `s` advances by its
length; if the remaining input is empty the wrapped executor's prefill is
never invoked and its current step is simply set to the advanced `s`;
otherwise exactly one wrapped prefill call occurs, with exactly the
remaining tail at the advanced step, after which the executor's step has
advanced past the tail (the S3 instance: processed [10,20,30], prefill
[10,20,30,40], one call with [40] at step 3, ending at step 4, is the
witness). -/
theorem prefill_prefix_match_spec (st : LockedState) (h : ContextHandler)
    (inputs : List Token) (ps : Int)
    (hh : st.handler = some h)
    (hcfg : h.runtime_config = none)
    (hrs : h.runtime_state = none)
    (hspc : st.spcStore h.spcId = none)
    (hne : inputs ≠ [])
    (hs0 : 0 ≤ effectiveStep st.exec ps)
    (hlt : effectiveStep st.exec ps < (st.exec.tokens.length : Int)) :
    (specRemainingTail st.exec inputs ps = [] →
      LockedLlmExecutor.Prefill st inputs ps =
        .ok ({ st with
                exec := { st.exec with
                  step := specAdvancedStep st.exec inputs ps } },
          [.setCurrentStep (specAdvancedStep st.exec inputs ps)])) ∧
    (specRemainingTail st.exec inputs ps ≠ [] →
      (resCalls (LockedLlmExecutor.Prefill st inputs ps)).map prefillCallsOf =
        some [.prefill (specRemainingTail st.exec inputs ps)
          (specAdvancedStep st.exec inputs ps)] ∧
      resStep (LockedLlmExecutor.Prefill st inputs ps) =
        some (specAdvancedStep st.exec inputs ps +
          (specRemainingTail st.exec inputs ps).length)) := by
  set s := effectiveStep st.exec ps with hsdef
  set k := matchLen (st.exec.tokens.drop s.toNat) inputs with hkdef
  have hsn : ((s.toNat : Nat) : Int) = s := Int.toNat_of_nonneg hs0
  have hsnlt : s.toNat < st.exec.tokens.length := by omega
  have hkle : k ≤ st.exec.tokens.length - s.toNat := by
    have := matchLen_le_left (st.exec.tokens.drop s.toNat) inputs
    simpa [hkdef] using this
  have hks : s + (k : Int) ≤ (st.exec.tokens.length : Int) := by omega
  have hlen0 : ¬(inputs.length = 0) := by
    simpa [List.length_eq_zero] using hne
  have hcount : ¬((st.exec.tokens.length : Int) = s) := by omega
  have hnoclamp : ¬(s + (k : Int) > (st.exec.tokens.length : Int)) := by omega
  have hsknneg : s + (k : Int) ≠ -1 := by omega
  have htail : specRemainingTail st.exec inputs ps = inputs.drop k := rfl
  have hadv : specAdvancedStep st.exec inputs ps = s + k := rfl
  rw [htail, hadv]
  unfold LockedLlmExecutor.Prefill
  rw [hh]
  simp only [RemoveMatchingTokens, if_neg hlen0, if_neg hcount, if_neg hnoclamp]
  constructor
  · intro ht
    rw [ht] at *
    simp [List.isEmpty_nil]
  · intro ht
    have hemp : (inputs.drop k).isEmpty = false := by
      simpa [List.isEmpty_iff] using ht
    rw [hemp]
    simp only [Bool.false_eq_true, if_false]
    by_cases hdir : (st.exec.tokens.length : Int) = s + k
    · rw [if_pos hdir]
      simp [resCalls, resStep, prefillCallsOf, execPrefill, hsknneg]
    · rw [if_neg hdir]
      by_cases hlg :
          LongestHandlerTimeStep st.siblingSteps st.exec.step ≠ s + (k : Int)
      · rw [if_pos hlg]
        simp [SaveProcessedContextAndSeparateLoadedHandler, hcfg, hrs, hspc,
          Except.map, resCalls, resStep, prefillCallsOf, execPrefill, hsknneg,
          ← hsdef, ← hkdef]
      · rw [if_neg hlg]
        simp [Except.map, resCalls, resStep, prefillCallsOf, execPrefill,
          hsknneg, ← hsdef, ← hkdef]

/-- The concrete state of scenario S3: the executor holds processed tokens
[10,20,30] at step 3 for an active bound handler with no sibling
handlers. -/
def s3LockedState : LockedState :=
  { exec := { tokens := [10, 20, 30]
              step := 3
              ran_decode := false
              config := { output_heads := 1, tokens_per_decode := 1 }
              lora_id := none }
    handler := some { spcId := 0
                      runtime_config := none
                      runtime_state := none
                      audio_context := none }
    spcStore := fun _ => none
    nextSpcId := 1
    siblingSteps := [] }

/-- Witness for C1, scenario S3: prefilling [10,20,30,40] (the whole prompt,
step params 0) against processed [10,20,30] causes exactly one wrapped
prefill call, with input tokens [40] at current step 3, ending at step 4. -/
theorem prefill_prefix_match_spec_witness :
    (resCalls (LockedLlmExecutor.Prefill s3LockedState [10, 20, 30, 40] 0)).map
        prefillCallsOf = some [.prefill [40] 3] ∧
    resStep (LockedLlmExecutor.Prefill s3LockedState [10, 20, 30, 40] 0) =
      some 4 :=
  (prefill_prefix_match_spec s3LockedState
      { spcId := 0, runtime_config := none, runtime_state := none,
        audio_context := none }
      [10, 20, 30, 40] 0 rfl rfl rfl rfl (by decide) (by decide)
      (by decide)).2 (by decide)

/-! ## C7 -/

/-- C7: the copy-on-write eviction step fails with an Internal error —
its `Except` result carries no state because the C++ code returns before
cloning the executor's context or touching the handler or its shared
cell — whenever the handler assumed to be loaded owns a RuntimeConfig,
owns a RuntimeState, or references a non-empty processed context, i.e. on
any violation of the Active-handler ownership invariant. -/
theorem save_processed_context_invariant_spec (st : LockedState)
    (h : ContextHandler)
    (hviol : h.runtime_config.isSome = true ∨ h.runtime_state.isSome = true ∨
      (st.spcStore h.spcId).isSome = true) :
    SaveProcessedContextAndSeparateLoadedHandler st h = .error .internal := by
  unfold SaveProcessedContextAndSeparateLoadedHandler
  rcases hviol with hv | hv | hv <;> simp [hv]

/-- Witness for C7: a handler still owning a RuntimeConfig is refused. -/
theorem save_processed_context_invariant_spec_witness :
    SaveProcessedContextAndSeparateLoadedHandler s3LockedState
      { spcId := 0
        runtime_config := some { output_heads := 1, tokens_per_decode := 1 }
        runtime_state := none
        audio_context := none } = .error .internal :=
  save_processed_context_invariant_spec s3LockedState
    { spcId := 0
      runtime_config := some { output_heads := 1, tokens_per_decode := 1 }
      runtime_state := none
      audio_context := none }
    (Or.inl (by decide))

/-! ## Lemmas about the longest handler time step and spcId preservation -/

theorem le_LongestHandlerTimeStep (l : List Int) (s : Int) :
    s ≤ LongestHandlerTimeStep l s := by
  induction l generalizing s with
  | nil => simp [LongestHandlerTimeStep]
  | cons t l ih =>
    have h1 := ih (max s t)
    have h2 : s ≤ max s t := le_max_left s t
    calc s ≤ max s t := h2
      _ ≤ LongestHandlerTimeStep l (max s t) := h1
      _ = LongestHandlerTimeStep (t :: l) s := rfl

theorem LongestHandlerTimeStep_le (l : List Int) (s c : Int)
    (hs : s ≤ c) (hl : ∀ t ∈ l, t ≤ c) :
    LongestHandlerTimeStep l s ≤ c := by
  induction l generalizing s with
  | nil => simpa [LongestHandlerTimeStep] using hs
  | cons t l ih =>
    have h1 : max s t ≤ c := by
      have := hl t (by simp)
      exact max_le hs this
    have h2 : ∀ u ∈ l, u ≤ c := fun u hu => hl u (by simp [hu])
    exact ih (max s t) h1 h2

theorem updH_spcId (f : Nat → ContextHandler) (i : Nat) (h : ContextHandler)
    (j : Nat) (hpres : h.spcId = (f i).spcId) :
    ((updH f i h) j).spcId = (f j).spcId := by
  unfold updH
  by_cases hj : j = i <;> simp [hj, hpres]

theorem AcquireSameSpcSwitch_spcId (st : RMState) (curId newId : Nat)
    (cfg : RuntimeConfig) (rs0 : RuntimeState) (j : Nat) :
    (((AcquireSameSpcSwitch st curId newId cfg rs0).1.handlers) j).spcId =
      (st.handlers j).spcId := by
  simp only [AcquireSameSpcSwitch, updH]
  by_cases h1 : j = newId <;> by_cases h2 : j = curId <;>
    (simp [h1, h2]; try simp_all)

theorem AcquireSaveCurrent_spcId (st : RMState) (curId : Nat) (j : Nat) :
    (((AcquireSaveCurrent st curId).handlers) j).spcId =
      (st.handlers j).spcId := by
  simp only [AcquireSaveCurrent, updH]
  by_cases h1 : j = curId <;> simp [h1]

theorem AcquireRestoreNew_spcId (st1 : RMState) (newId : Nat)
    (cfg : RuntimeConfig) (rs0 : RuntimeState) (j : Nat) :
    (((AcquireRestoreNew st1 newId cfg rs0).1.handlers) j).spcId =
      (st1.handlers j).spcId := by
  simp only [AcquireRestoreNew, updH]
  split <;> (by_cases h1 : j = newId <;> simp [updH, h1])

theorem AcquireAudioSnapshot_spcId (curId : Nat) (stc : RMState)
    (evs : List SwitchEvent) (std1 : RMState) (evs1 : List SwitchEvent)
    (hok : AcquireAudioSnapshot curId stc evs = .ok (std1, evs1)) (j : Nat) :
    (std1.handlers j).spcId = (stc.handlers j).spcId := by
  unfold AcquireAudioSnapshot at hok
  split at hok
  · split at hok
    · exact absurd hok (by simp)
    · cases hok
      simp only [updH]
      by_cases h1 : j = curId <;> simp [h1]
  · cases hok
    rfl

theorem AcquireAudioRestore_spcId (na : Option AudioContext) (std1 : RMState)
    (evs1 : List SwitchEvent) (std : RMState) (evs2 : List SwitchEvent)
    (hok : AcquireAudioRestore na std1 evs1 = .ok (std, evs2)) (j : Nat) :
    (std.handlers j).spcId = (std1.handlers j).spcId := by
  unfold AcquireAudioRestore at hok
  split at hok
  · split at hok
    · exact absurd hok (by simp)
    · cases hok
      rfl
  · cases hok
    rfl

theorem AcquireAudioStep_spcId (ocur : Option Nat) (na : Option AudioContext)
    (stc : RMState) (evs : List SwitchEvent) (std : RMState)
    (evs2 : List SwitchEvent)
    (hok : AcquireAudioStep ocur na stc evs = .ok (std, evs2)) (j : Nat) :
    (std.handlers j).spcId = (stc.handlers j).spcId := by
  cases ocur with
  | none =>
    simp only [AcquireAudioStep] at hok
    cases hok
    rfl
  | some curId =>
    simp only [AcquireAudioStep] at hok
    split at hok
    · exact absurd hok (by simp)
    · rename_i std1 evs1 heq
      calc (std.handlers j).spcId
          = (std1.handlers j).spcId :=
            AcquireAudioRestore_spcId na std1 evs1 std evs2 hok j
        _ = (stc.handlers j).spcId :=
            AcquireAudioSnapshot_spcId curId stc evs std1 evs1 heq j

/-- A successful context switch never changes the shared-cell reference of
any registered handler. -/
theorem Acquire_preserves_spcId (st0 : RMState) (newId : Nat) (st2 : RMState)
    (evs : List SwitchEvent)
    (hok : ResourceManager.AcquireExecutorWithContextHandler st0 newId =
      .ok (st2, evs)) (j : Nat) :
    (st2.handlers j).spcId = (st0.handlers j).spcId := by
  unfold ResourceManager.AcquireExecutorWithContextHandler at hok
  by_cases hsame : st0.currentHandlerId = some newId
  · rw [if_pos hsame] at hok
    cases hok
    rfl
  · rw [if_neg hsame] at hok
    rcases hcfg2 : (st0.handlers newId).runtime_config with _ | new_cfg <;>
      rcases hrs2 : (st0.handlers newId).runtime_state with _ | new_rs0 <;>
      simp only [hcfg2, hrs2] at hok
    · exact absurd hok (by simp)
    · exact absurd hok (by simp)
    · exact absurd hok (by simp)
    · rcases hcur : st0.currentHandlerId with _ | curId <;>
        simp only [hcur] at hok
      · split at hok
        · exact absurd hok (by simp)
        · rename_i std2 evs2 heq
          cases hok
          exact (AcquireAudioStep_spcId _ _ _ _ _ _ heq j).trans
            (AcquireRestoreNew_spcId st0 newId new_cfg new_rs0 j)
      · by_cases hspc2 : (st0.handlers curId).spcId =
            (st0.handlers newId).spcId <;>
          simp only [hspc2, if_true, if_false] at hok
        · split at hok
          · exact absurd hok (by simp)
          · rename_i std2 evs2 heq
            cases hok
            exact (AcquireAudioStep_spcId _ _ _ _ _ _ heq j).trans
              (AcquireSameSpcSwitch_spcId st0 curId newId new_cfg new_rs0 j)
        · split at hok
          · exact absurd hok (by simp)
          · rename_i std2 evs2 heq
            cases hok
            exact (AcquireAudioStep_spcId _ _ _ _ _ _ heq j).trans
              ((AcquireRestoreNew_spcId _ newId new_cfg new_rs0 j).trans
                (AcquireSaveCurrent_spcId st0 curId j))

/-- A successful handler clone references the source handler's shared
cell. -/
theorem Clone_shares_spcId (st0 : RMState) (srcId : Nat) (h2 : ContextHandler)
    (hok : ResourceManager.CloneContextHandler st0 srcId = .ok h2) :
    h2.spcId = (st0.handlers srcId).spcId := by
  unfold ResourceManager.CloneContextHandler at hok
  rcases hc : (st0.handlers srcId).runtime_config with _ | cfg <;>
    rcases hr : (st0.handlers srcId).runtime_state with _ | rs <;>
    simp only [hc, hr] at hok <;>
    first
      | (cases hok; rfl)
      | (by_cases hcur : st0.currentHandlerId = some srcId
         · rw [if_pos hcur] at hok
           cases hok
           rfl
         · rw [if_neg hcur] at hok
           exact absurd hok (by simp))

/-- Within a bound prefill, either the handler's shared-cell reference and
the cell store are untouched, or the eviction/detach step ran with exactly
its effects. -/
theorem Prefill_spc_change (st0 : LockedState) (h0 : ContextHandler)
    (inputs0 : List Token) (ps0 : Int) (st2 : LockedState)
    (calls : List ExecCall)
    (hh0 : st0.handler = some h0)
    (hfresh : h0.spcId ≠ st0.nextSpcId)
    (hok : LockedLlmExecutor.Prefill st0 inputs0 ps0 = .ok (st2, calls)) :
    (st2.handler = some h0 ∧ st2.spcStore = st0.spcStore ∧
      st2.nextSpcId = st0.nextSpcId) ∨
    (st2.handler = some { h0 with spcId := st0.nextSpcId } ∧
      st2.spcStore h0.spcId = some ⟨st0.exec.tokens, st0.exec.lora_id⟩ ∧
      st2.spcStore st0.nextSpcId = none ∧
      st2.nextSpcId = st0.nextSpcId + 1) := by
  unfold LockedLlmExecutor.Prefill at hok
  rw [hh0] at hok
  simp only [RemoveMatchingTokens] at hok
  set E := effectiveStep st0.exec ps0 with hE
  set K := matchLen (st0.exec.tokens.drop E.toNat) inputs0 with hK
  set L : Int := (st0.exec.tokens.length : Int) with hL
  by_cases h1 : inputs0.length = 0
  · rw [if_pos h1] at hok
    cases hok
    exact Or.inl ⟨hh0, rfl, rfl⟩
  · rw [if_neg h1] at hok
    by_cases h2 : L = E
    · rw [if_pos h2] at hok
      cases hok
      exact Or.inl ⟨rfl, rfl, rfl⟩
    · rw [if_neg h2] at hok
      by_cases h3 : (inputs0.drop K).isEmpty = true
      · rw [if_pos h3] at hok
        cases hok
        exact Or.inl ⟨rfl, rfl, rfl⟩
      · rw [if_neg h3] at hok
        by_cases hcl : E + (K : Int) > L
        · rw [if_pos hcl, if_pos rfl] at hok
          cases hok
          exact Or.inl ⟨rfl, rfl, rfl⟩
        · rw [if_neg hcl] at hok
          by_cases h4 : L = E + (K : Int)
          · rw [if_pos h4] at hok
            cases hok
            exact Or.inl ⟨rfl, rfl, rfl⟩
          · rw [if_neg h4] at hok
            by_cases h5 : LongestHandlerTimeStep st0.siblingSteps
                st0.exec.step ≠ E + (K : Int)
            · rw [if_pos h5] at hok
              unfold SaveProcessedContextAndSeparateLoadedHandler at hok
              by_cases h6 : (h0.runtime_config.isSome ||
                  h0.runtime_state.isSome ||
                  (st0.spcStore h0.spcId).isSome) = true
              · rw [if_pos h6] at hok
                simp [Except.map] at hok
              · rw [if_neg h6] at hok
                simp only [Except.map] at hok
                cases hok
                refine Or.inr ⟨rfl, ?_, ?_, rfl⟩
                · simp [hfresh]
                · simp
            · rw [if_neg h5] at hok
              cases hok
              exact Or.inl ⟨hh0, rfl, rfl⟩

/-- Within the decode-time copy-on-write check, either the handler's
shared-cell reference and the cell store are untouched, or the
eviction/detach step ran with exactly its effects. -/
theorem MaybeTruncate_spc_change (st0 : LockedState) (h0 : ContextHandler)
    (st2 : LockedState) (calls : List ExecCall)
    (hh0 : st0.handler = some h0)
    (hfresh : h0.spcId ≠ st0.nextSpcId)
    (hok : LockedLlmExecutor.MaybeTruncateProcessedTokens st0 =
      .ok (st2, calls)) :
    (st2.handler = some h0 ∧ st2.spcStore = st0.spcStore ∧
      st2.nextSpcId = st0.nextSpcId) ∨
    (st2.handler = some { h0 with spcId := st0.nextSpcId } ∧
      st2.spcStore h0.spcId = some ⟨st0.exec.tokens, st0.exec.lora_id⟩ ∧
      st2.spcStore st0.nextSpcId = none ∧
      st2.nextSpcId = st0.nextSpcId + 1) := by
  unfold LockedLlmExecutor.MaybeTruncateProcessedTokens at hok
  rw [hh0] at hok
  simp only [] at hok
  by_cases h1 : (st0.exec.tokens.length : Int) = st0.exec.step
  · rw [if_pos h1] at hok
    cases hok
    exact Or.inl ⟨hh0, rfl, rfl⟩
  · rw [if_neg h1] at hok
    by_cases h5 : LongestHandlerTimeStep st0.siblingSteps st0.exec.step ≠
        st0.exec.step
    · rw [if_pos h5] at hok
      unfold SaveProcessedContextAndSeparateLoadedHandler at hok
      by_cases h6 : (h0.runtime_config.isSome || h0.runtime_state.isSome ||
          (st0.spcStore h0.spcId).isSome) = true
      · rw [if_pos h6] at hok
        simp [Except.map] at hok
      · rw [if_neg h6] at hok
        simp only [Except.map] at hok
        cases hok
        refine Or.inr ⟨rfl, ?_, ?_, rfl⟩
        · simp [hfresh]
        · simp
    · rw [if_neg h5] at hok
      cases hok
      exact Or.inl ⟨hh0, rfl, rfl⟩

/-- `Prefill_spc_change` carried over to `Decode`. -/
theorem Decode_spc_change (st0 : LockedState) (h0 : ContextHandler)
    (st2 : LockedState) (calls : List ExecCall)
    (hh0 : st0.handler = some h0)
    (hfresh : h0.spcId ≠ st0.nextSpcId)
    (hok : LockedLlmExecutor.Decode st0 = .ok (st2, calls)) :
    (st2.handler = some h0 ∧ st2.spcStore = st0.spcStore ∧
      st2.nextSpcId = st0.nextSpcId) ∨
    (st2.handler = some { h0 with spcId := st0.nextSpcId } ∧
      st2.spcStore h0.spcId = some ⟨st0.exec.tokens, st0.exec.lora_id⟩ ∧
      st2.spcStore st0.nextSpcId = none ∧
      st2.nextSpcId = st0.nextSpcId + 1) := by
  unfold LockedLlmExecutor.Decode at hok
  cases hmt : LockedLlmExecutor.MaybeTruncateProcessedTokens st0 with
  | error e => rw [hmt] at hok; exact absurd hok (by simp [Except.map])
  | ok p =>
    rw [hmt] at hok
    simp only [Except.map] at hok
    cases hok
    exact MaybeTruncate_spc_change st0 h0 p.1 p.2 hh0 hfresh (by rw [hmt])

/-- C2: for a Prefill or Decode through a handle bound to a context handler
whose effective step differs from the longest handler time step of its
shared cell (for Prefill: when the remaining input still mismatches the
processed tokens), the eviction/detach step runs before the wrapped
executor operation: the executor's cloned processed context is stored into
the previously shared cell, the handler is re-pointed at a fresh empty
cell, and the executor's current step is set to the handler's effective
step, all before the prefill/decode call; moreover this eviction is the
sole mechanism re-pointing a handler — when a bound prefill or decode
leaves the handler's cell reference unchanged the cell store is unchanged
too (with the eviction effects otherwise), context switches never change
any handler's cell reference, and cloning returns a handler on the source's
own cell. -/
theorem cow_eviction_spec (st : LockedState) (h : ContextHandler)
    (inputs : List Token) (ps : Int)
    (hh : st.handler = some h)
    (hcfg : h.runtime_config = none)
    (hrs : h.runtime_state = none)
    (hspc : st.spcStore h.spcId = none)
    (hfresh : h.spcId ≠ st.nextSpcId)
    (hne : inputs ≠ [])
    (hs0 : 0 ≤ effectiveStep st.exec ps)
    (hlt : effectiveStep st.exec ps < (st.exec.tokens.length : Int))
    (htail : specRemainingTail st.exec inputs ps ≠ [])
    (hmis : specAdvancedStep st.exec inputs ps < (st.exec.tokens.length : Int))
    (hlgP : LongestHandlerTimeStep st.siblingSteps st.exec.step ≠
      specAdvancedStep st.exec inputs ps)
    (hsb : ∀ t ∈ st.siblingSteps, t ≤ (st.exec.tokens.length : Int))
    (hstep : st.exec.step ≤ (st.exec.tokens.length : Int))
    (hlgD : LongestHandlerTimeStep st.siblingSteps st.exec.step ≠
      st.exec.step) :
    -- (a) prefill-time eviction, before the wrapped prefill runs
    (resSpcAt (LockedLlmExecutor.Prefill st inputs ps) h.spcId =
        some (some ⟨st.exec.tokens, st.exec.lora_id⟩) ∧
      resHandler (LockedLlmExecutor.Prefill st inputs ps) =
        some { h with spcId := st.nextSpcId } ∧
      resSpcAt (LockedLlmExecutor.Prefill st inputs ps) st.nextSpcId =
        some none ∧
      resCalls (LockedLlmExecutor.Prefill st inputs ps) =
        some [.setCurrentStep (specAdvancedStep st.exec inputs ps),
          .prefill (specRemainingTail st.exec inputs ps)
            (specAdvancedStep st.exec inputs ps)]) ∧
    -- (b) decode-time eviction, before the wrapped decode runs
    (resSpcAt (LockedLlmExecutor.Decode st) h.spcId =
        some (some ⟨st.exec.tokens, st.exec.lora_id⟩) ∧
      resHandler (LockedLlmExecutor.Decode st) =
        some { h with spcId := st.nextSpcId } ∧
      resSpcAt (LockedLlmExecutor.Decode st) st.nextSpcId = some none ∧
      resCalls (LockedLlmExecutor.Decode st) =
        some [.setCurrentStep st.exec.step, .decode]) ∧
    -- (c) sole mechanism within a bound prefill
    (∀ st0 : LockedState, ∀ h0 : ContextHandler, ∀ inputs0 : List Token,
      ∀ ps0 : Int, ∀ st2 : LockedState, ∀ calls : List ExecCall,
      st0.handler = some h0 → h0.spcId ≠ st0.nextSpcId →
      LockedLlmExecutor.Prefill st0 inputs0 ps0 = .ok (st2, calls) →
      (st2.handler = some h0 ∧ st2.spcStore = st0.spcStore ∧
        st2.nextSpcId = st0.nextSpcId) ∨
      (st2.handler = some { h0 with spcId := st0.nextSpcId } ∧
        st2.spcStore h0.spcId = some ⟨st0.exec.tokens, st0.exec.lora_id⟩ ∧
        st2.spcStore st0.nextSpcId = none ∧
        st2.nextSpcId = st0.nextSpcId + 1)) ∧
    -- (d) sole mechanism within a bound decode
    (∀ st0 : LockedState, ∀ h0 : ContextHandler, ∀ st2 : LockedState,
      ∀ calls : List ExecCall,
      st0.handler = some h0 → h0.spcId ≠ st0.nextSpcId →
      LockedLlmExecutor.Decode st0 = .ok (st2, calls) →
      (st2.handler = some h0 ∧ st2.spcStore = st0.spcStore ∧
        st2.nextSpcId = st0.nextSpcId) ∨
      (st2.handler = some { h0 with spcId := st0.nextSpcId } ∧
        st2.spcStore h0.spcId = some ⟨st0.exec.tokens, st0.exec.lora_id⟩ ∧
        st2.spcStore st0.nextSpcId = none ∧
        st2.nextSpcId = st0.nextSpcId + 1)) ∧
    -- (e) context switches never re-point a handler
    (∀ st0 : RMState, ∀ newId : Nat, ∀ st2 : RMState,
      ∀ evs : List SwitchEvent,
      ResourceManager.AcquireExecutorWithContextHandler st0 newId =
        .ok (st2, evs) →
      ∀ j, (st2.handlers j).spcId = (st0.handlers j).spcId) ∧
    -- (f) cloning shares the source's cell
    (∀ st0 : RMState, ∀ srcId : Nat, ∀ h2 : ContextHandler,
      ResourceManager.CloneContextHandler st0 srcId = .ok h2 →
      h2.spcId = (st0.handlers srcId).spcId) := by
  refine ⟨?_, ?_, ?_, ?_, ?_, ?_⟩
  · -- (a)
    set s := effectiveStep st.exec ps with hsdef
    set k := matchLen (st.exec.tokens.drop s.toNat) inputs with hkdef
    have hsn : ((s.toNat : Nat) : Int) = s := Int.toNat_of_nonneg hs0
    have hkle : k ≤ st.exec.tokens.length - s.toNat := by
      have := matchLen_le_left (st.exec.tokens.drop s.toNat) inputs
      simpa [hkdef] using this
    have hlen0 : ¬(inputs.length = 0) := by
      simpa [List.length_eq_zero] using hne
    have hcount : ¬((st.exec.tokens.length : Int) = s) := by omega
    have hadv : specAdvancedStep st.exec inputs ps = s + k := rfl
    have hnoclamp : ¬(s + (k : Int) > (st.exec.tokens.length : Int)) := by
      rw [hadv] at hmis
      omega
    have hdir : ¬((st.exec.tokens.length : Int) = s + (k : Int)) := by
      rw [hadv] at hmis
      omega
    have htail2 : inputs.drop k ≠ [] := htail
    have hemp : (inputs.drop k).isEmpty = false := by
      simpa [List.isEmpty_iff] using htail2
    have hlg2 : LongestHandlerTimeStep st.siblingSteps st.exec.step ≠
        s + (k : Int) := by
      rw [hadv] at hlgP
      exact hlgP
    unfold LockedLlmExecutor.Prefill
    rw [hh]
    simp only [RemoveMatchingTokens, if_neg hlen0, if_neg hcount,
      if_neg hnoclamp, hemp, Bool.false_eq_true, if_false, if_neg hdir,
      if_pos hlg2]
    unfold SaveProcessedContextAndSeparateLoadedHandler
    rw [if_neg (by simp [hcfg, hrs, hspc])]
    simp only [Except.map]
    refine ⟨?_, rfl, ?_, rfl⟩
    · simp [resSpcAt, hfresh]
    · simp [resSpcAt]
  · -- (b)
    have hge := le_LongestHandlerTimeStep st.siblingSteps st.exec.step
    have hle := LongestHandlerTimeStep_le st.siblingSteps st.exec.step
      (st.exec.tokens.length : Int) hstep hsb
    have hcount2 : ¬((st.exec.tokens.length : Int) = st.exec.step) := by
      omega
    unfold LockedLlmExecutor.Decode
      LockedLlmExecutor.MaybeTruncateProcessedTokens
    rw [hh]
    simp only [if_neg hcount2, if_pos hlgD]
    unfold SaveProcessedContextAndSeparateLoadedHandler
    rw [if_neg (by simp [hcfg, hrs, hspc])]
    simp only [Except.map]
    refine ⟨?_, rfl, ?_, rfl⟩
    · simp [resSpcAt, hfresh]
    · simp [resSpcAt]
  · -- (c)
    intro st0 h0 inputs0 ps0 st2 calls hh0 hfresh0 hok
    exact Prefill_spc_change st0 h0 inputs0 ps0 st2 calls hh0 hfresh0 hok
  · -- (d)
    intro st0 h0 st2 calls hh0 hfresh0 hok
    exact Decode_spc_change st0 h0 st2 calls hh0 hfresh0 hok
  · -- (e)
    intro st0 newId st2 evs hok j
    exact Acquire_preserves_spcId st0 newId st2 evs hok j
  · -- (f)
    intro st0 srcId h2 hok
    exact Clone_shares_spcId st0 srcId h2 hok

/-- A concrete state for the C2 witness: processed [1,2,3], executor step 1,
one suspended sibling at step 3 on the same shared cell. -/
def c2LockedState : LockedState :=
  { exec := { tokens := [1, 2, 3]
              step := 1
              ran_decode := false
              config := { output_heads := 1, tokens_per_decode := 1 }
              lora_id := none }
    handler := some { spcId := 0
                      runtime_config := none
                      runtime_state := none
                      audio_context := none }
    spcStore := fun _ => none
    nextSpcId := 1
    siblingSteps := [3] }

/-- Witness for C2: with the sibling at step 3 further along than the
handler's step 1, both the mismatching prefill of [9] and a decode evict
the executor's context into the shared cell 0, detach the handler onto the
fresh cell 1, and set the executor's step before the wrapped call. -/
theorem cow_eviction_spec_witness :
    (resSpcAt (LockedLlmExecutor.Prefill c2LockedState [9] 1) 0 =
        some (some { tokens := [1, 2, 3], lora_id := none }) ∧
      resHandler (LockedLlmExecutor.Prefill c2LockedState [9] 1) =
        some { spcId := 1
               runtime_config := none
               runtime_state := none
               audio_context := none } ∧
      resSpcAt (LockedLlmExecutor.Prefill c2LockedState [9] 1) 1 =
        some none ∧
      resCalls (LockedLlmExecutor.Prefill c2LockedState [9] 1) =
        some [.setCurrentStep 1, .prefill [9] 1]) ∧
    (resSpcAt (LockedLlmExecutor.Decode c2LockedState) 0 =
        some (some { tokens := [1, 2, 3], lora_id := none }) ∧
      resHandler (LockedLlmExecutor.Decode c2LockedState) =
        some { spcId := 1
               runtime_config := none
               runtime_state := none
               audio_context := none } ∧
      resSpcAt (LockedLlmExecutor.Decode c2LockedState) 1 = some none ∧
      resCalls (LockedLlmExecutor.Decode c2LockedState) =
        some [.setCurrentStep 1, .decode]) :=
  let full := cow_eviction_spec c2LockedState
    { spcId := 0, runtime_config := none, runtime_state := none,
      audio_context := none }
    [9] 1 rfl rfl rfl rfl (by decide) (by decide) (by decide) (by decide)
    (by decide) (by decide) (by decide) (by decide) (by decide) (by decide)
  ⟨full.1, full.2.1⟩

/-! ## C3 -/

/-- C3: `CloneContextHandler` returns a handler on the very same shared
cell as the source — the embedding returns no state because the C++
function only reads the manager — with value copies of the RuntimeConfig
and RuntimeState taken from the source when it owns both, and read out of
the executor when the source is the currently active handler; the audio
context, when present, is the source's clone; consequently the clone
references the identical processed-context cell content. -/
theorem clone_context_handler_spec (st : RMState) (srcId : Nat) :
    (∀ cfg rs, (st.handlers srcId).runtime_config = some cfg →
      (st.handlers srcId).runtime_state = some rs →
      ResourceManager.CloneContextHandler st srcId =
        .ok { spcId := (st.handlers srcId).spcId
              runtime_config := some cfg
              runtime_state := some rs
              audio_context := (st.handlers srcId).audio_context }) ∧
    (((st.handlers srcId).runtime_config = none ∨
        (st.handlers srcId).runtime_state = none) →
      st.currentHandlerId = some srcId →
      ResourceManager.CloneContextHandler st srcId =
        .ok { spcId := (st.handlers srcId).spcId
              runtime_config := some st.exec.config
              runtime_state := some ⟨st.exec.step, st.exec.ran_decode⟩
              audio_context := (st.handlers srcId).audio_context }) ∧
    (∀ h2, ResourceManager.CloneContextHandler st srcId = .ok h2 →
      h2.spcId = (st.handlers srcId).spcId ∧
      st.spcStore h2.spcId = st.spcStore (st.handlers srcId).spcId) := by
  refine ⟨?_, ?_, ?_⟩
  · intro cfg rs hc hr
    unfold ResourceManager.CloneContextHandler
    simp only [hc, hr]
  · intro hone hcur
    unfold ResourceManager.CloneContextHandler
    rcases hone with hc | hr
    · rcases hr2 : (st.handlers srcId).runtime_state with _ | rs <;>
        simp only [hc, hr2, if_pos hcur]
    · rcases hc2 : (st.handlers srcId).runtime_config with _ | cfg <;>
        simp only [hc2, hr, if_pos hcur]
  · intro h2 hok
    have h := Clone_shares_spcId st srcId h2 hok
    exact ⟨h, by rw [h]⟩

/-- A concrete two-handler manager state for the ResourceManager
witnesses: handler 0 is active (all its state in the executor), handler 1
is suspended on its own empty cell with stored step 5. -/
def rmWitnessState : RMState :=
  { exec := { tokens := [1, 2, 3]
              step := 3
              ran_decode := true
              config := { output_heads := 1, tokens_per_decode := 1 }
              lora_id := none }
    audioExec := none
    handlers := fun i =>
      if i = 0 then
        { spcId := 0
          runtime_config := none
          runtime_state := none
          audio_context := none }
      else
        { spcId := 1
          runtime_config := some { output_heads := 2, tokens_per_decode := 1 }
          runtime_state := some { current_step := 5, ran_decode := false }
          audio_context := none }
    currentHandlerId := some 0
    spcStore := fun _ => none
    nextSpcId := 2 }

/-- Witness for C3: cloning the suspended handler 1 copies its own config
and state and shares cell 1; cloning the active handler 0 reads the
executor's config and state and shares cell 0. -/
theorem clone_context_handler_spec_witness :
    ResourceManager.CloneContextHandler rmWitnessState 1 =
      .ok { spcId := 1
            runtime_config := some { output_heads := 2, tokens_per_decode := 1 }
            runtime_state := some { current_step := 5, ran_decode := false }
            audio_context := none } ∧
    ResourceManager.CloneContextHandler rmWitnessState 0 =
      .ok { spcId := 0
            runtime_config := some { output_heads := 1, tokens_per_decode := 1 }
            runtime_state := some { current_step := 3, ran_decode := true }
            audio_context := none } :=
  ⟨(clone_context_handler_spec rmWitnessState 1).1
      { output_heads := 2, tokens_per_decode := 1 }
      { current_step := 5, ran_decode := false } (by decide) (by decide),
    (clone_context_handler_spec rmWitnessState 0).2.1 (Or.inl (by decide))
      (by decide)⟩

/-! ## C4 -/

theorem clampRS_current_step (rs : RuntimeState) (c : Int) :
    (clampRS rs c).current_step =
      if rs.current_step > c then (if c < 0 then 0 else c)
      else if rs.current_step < 0 then 0 else rs.current_step := by
  unfold clampRS
  by_cases h1 : rs.current_step > c
  · simp only [if_pos h1]
    by_cases h2 : c < 0 <;> simp [h2]
  · simp only [if_neg h1]
    by_cases h2 : rs.current_step < 0 <;> simp [h2]

theorem clampRS_nonneg (rs : RuntimeState) (c : Int) (hc : 0 ≤ c) :
    0 ≤ (clampRS rs c).current_step := by
  rw [clampRS_current_step]
  split_ifs <;> omega

theorem clampRS_le (rs : RuntimeState) (c : Int) (hc : 0 ≤ c) :
    (clampRS rs c).current_step ≤ c := by
  rw [clampRS_current_step]
  split_ifs <;> omega

theorem clampRS_ran_decode (rs : RuntimeState) (c : Int) :
    (clampRS rs c).ran_decode = rs.ran_decode := by
  unfold clampRS
  by_cases h1 : rs.current_step > c
  · simp only [if_pos h1]
    by_cases h2 : c < 0 <;> simp [h2]
  · simp only [if_neg h1]
    by_cases h2 : rs.current_step < 0 <;> simp [h2]

theorem targetTokenCount_nonneg (pc : Option ProcessedContext) :
    0 ≤ targetTokenCount pc := by
  unfold targetTokenCount
  cases pc <;> simp

/-- Every step value a bound prefill passes to the wrapped executor on the
prefix-match path (the effective step strictly below the token count) is at
most the token count, and nonnegative whenever the effective step is. -/
theorem Prefill_calls_bounded (st0 : LockedState) (h0 : ContextHandler)
    (inputs0 : List Token) (ps0 : Int) (st2 : LockedState)
    (calls : List ExecCall)
    (hh0 : st0.handler = some h0)
    (hlt : effectiveStep st0.exec ps0 < (st0.exec.tokens.length : Int))
    (hok : LockedLlmExecutor.Prefill st0 inputs0 ps0 = .ok (st2, calls)) :
    ∀ s' : Int,
      (ExecCall.setCurrentStep s' ∈ calls ∨
        ∃ t, ExecCall.prefill t s' ∈ calls) →
      s' ≤ (st0.exec.tokens.length : Int) ∧
        (0 ≤ effectiveStep st0.exec ps0 → 0 ≤ s') := by
  unfold LockedLlmExecutor.Prefill at hok
  rw [hh0] at hok
  simp only [RemoveMatchingTokens] at hok
  set E := effectiveStep st0.exec ps0 with hE
  set K := matchLen (st0.exec.tokens.drop E.toNat) inputs0 with hK
  set L : Int := (st0.exec.tokens.length : Int) with hL
  have hL0 : (0 : Int) ≤ L := by
    rw [hL]
    exact Int.natCast_nonneg _
  have hK0 : (0 : Int) ≤ (K : Int) := Int.natCast_nonneg _
  by_cases h1 : inputs0.length = 0
  · rw [if_pos h1] at hok
    cases hok
    intro s' hmem
    rcases hmem with hm | ⟨t, hm⟩ <;> simp at hm
  · rw [if_neg h1] at hok
    rw [if_neg (show ¬(L = E) by omega)] at hok
    by_cases h3 : (inputs0.drop K).isEmpty = true
    · rw [if_pos h3] at hok
      cases hok
      intro s' hmem
      rcases hmem with hm | ⟨t, hm⟩ <;> simp at hm
      subst hm
      constructor
      · split <;> omega
      · intro hE0
        split <;> omega
    · rw [if_neg h3] at hok
      by_cases hcl : E + (K : Int) > L
      · rw [if_pos hcl, if_pos rfl] at hok
        cases hok
        intro s' hmem
        rcases hmem with hm | ⟨t, hm⟩ <;> simp at hm
        rcases hm with ⟨-, hm⟩
        subst hm
        exact ⟨le_refl L, fun _ => hL0⟩
      · rw [if_neg hcl] at hok
        by_cases h4 : L = E + (K : Int)
        · rw [if_pos h4] at hok
          cases hok
          intro s' hmem
          rcases hmem with hm | ⟨t, hm⟩ <;> simp at hm
          rcases hm with ⟨-, hm⟩
          subst hm
          exact ⟨by omega, fun hE0 => by omega⟩
        · rw [if_neg h4] at hok
          by_cases h5 : LongestHandlerTimeStep st0.siblingSteps
              st0.exec.step ≠ E + (K : Int)
          · rw [if_pos h5] at hok
            unfold SaveProcessedContextAndSeparateLoadedHandler at hok
            by_cases h6 : (h0.runtime_config.isSome ||
                h0.runtime_state.isSome ||
                (st0.spcStore h0.spcId).isSome) = true
            · rw [if_pos h6] at hok
              simp [Except.map] at hok
            · rw [if_neg h6] at hok
              simp only [Except.map] at hok
              cases hok
              intro s' hmem
              rcases hmem with hm | ⟨t, hm⟩ <;> simp at hm
              · subst hm
                exact ⟨by omega, fun hE0 => by omega⟩
              · rcases hm with ⟨-, hm⟩
                subst hm
                exact ⟨by omega, fun hE0 => by omega⟩
          · rw [if_neg h5] at hok
            cases hok
            intro s' hmem
            rcases hmem with hm | ⟨t, hm⟩ <;> simp at hm
            · subst hm
              exact ⟨by omega, fun hE0 => by omega⟩
            · rcases hm with ⟨-, hm⟩
              subst hm
              exact ⟨by omega, fun hE0 => by omega⟩

/-- Counterexample for C4 as stated: on the bound prefill whose clamped
effective step equals the token count the source forwards the ORIGINAL
prefill params to the wrapped executor (resource_manager.cc:224-226), so
with params current step 100 against 3 processed tokens the executor
receives current step 100, outside [0, token_count]. -/
theorem current_step_clamp_counterexample :
    resCalls (LockedLlmExecutor.Prefill s3LockedState [9] 100) =
      some [.prefill [9] 100] ∧
    (100 : Int) > (s3LockedState.exec.tokens.length : Int) := by
  decide

/-- C4 (amended): the two RuntimeState-installing operations — the context
switch between handlers sharing a processed context and the restore of a
different processed context (with or without an outgoing handler) — clamp
the incoming current step into [0, token count of the target context]
before giving it to the executor; a bound prefill clamps its effective
current step down to the processed-token count, and on the prefix-match
path (effective step strictly below the count) every step value passed to
the wrapped executor is at most the count and nonnegative whenever the
effective step is; the original-params pass-through of the verbatim branch
is exempt. -/
theorem current_step_clamp_spec :
    -- (i) same shared processed context
    (∀ st : RMState, ∀ curId newId : Nat, ∀ cfg : RuntimeConfig,
      ∀ rs0 : RuntimeState,
      st.currentHandlerId = some curId → curId ≠ newId →
      (st.handlers curId).spcId = (st.handlers newId).spcId →
      (st.handlers newId).runtime_config = some cfg →
      (st.handlers newId).runtime_state = some rs0 →
      (st.handlers curId).audio_context = none →
      (st.handlers newId).audio_context = none →
      swEvents (ResourceManager.AcquireExecutorWithContextHandler st newId) =
        some [.updateRuntimeConfig cfg,
          .updateRuntimeState (clampRS rs0 (st.exec.tokens.length : Int))] ∧
      swStep (ResourceManager.AcquireExecutorWithContextHandler st newId) =
        some ((clampRS rs0 (st.exec.tokens.length : Int)).current_step) ∧
      0 ≤ (clampRS rs0 (st.exec.tokens.length : Int)).current_step ∧
      (clampRS rs0 (st.exec.tokens.length : Int)).current_step ≤
        (st.exec.tokens.length : Int)) ∧
    -- (ii) restore with no previously active handler
    (∀ st : RMState, ∀ newId : Nat, ∀ cfg : RuntimeConfig,
      ∀ rs0 : RuntimeState,
      st.currentHandlerId = none →
      (st.handlers newId).runtime_config = some cfg →
      (st.handlers newId).runtime_state = some rs0 →
      (swEvents (ResourceManager.AcquireExecutorWithContextHandler st newId) =
          some [.createNewContext
            ((st.spcStore (st.handlers newId).spcId).bind
              (fun pc => pc.lora_id)) cfg,
            .updateRuntimeState (clampRS rs0
              (targetTokenCount (st.spcStore (st.handlers newId).spcId)))] ∨
        swEvents (ResourceManager.AcquireExecutorWithContextHandler st newId) =
          some [.restoreContext (st.spcStore (st.handlers newId).spcId) cfg
            (clampRS rs0
              (targetTokenCount (st.spcStore (st.handlers newId).spcId)))]) ∧
      swStep (ResourceManager.AcquireExecutorWithContextHandler st newId) =
        some ((clampRS rs0
          (targetTokenCount (st.spcStore (st.handlers newId).spcId))).current_step) ∧
      0 ≤ (clampRS rs0
        (targetTokenCount (st.spcStore (st.handlers newId).spcId))).current_step ∧
      (clampRS rs0
        (targetTokenCount (st.spcStore (st.handlers newId).spcId))).current_step ≤
        targetTokenCount (st.spcStore (st.handlers newId).spcId)) ∧
    -- (iii) restore saving a previously active handler first
    (∀ st : RMState, ∀ curId newId : Nat, ∀ cfg : RuntimeConfig,
      ∀ rs0 : RuntimeState,
      st.currentHandlerId = some curId → curId ≠ newId →
      (st.handlers curId).spcId ≠ (st.handlers newId).spcId →
      (st.handlers newId).runtime_config = some cfg →
      (st.handlers newId).runtime_state = some rs0 →
      (st.handlers curId).audio_context = none →
      (st.handlers newId).audio_context = none →
      swStep (ResourceManager.AcquireExecutorWithContextHandler st newId) =
        some ((clampRS rs0
          (targetTokenCount (st.spcStore (st.handlers newId).spcId))).current_step) ∧
      0 ≤ (clampRS rs0
        (targetTokenCount (st.spcStore (st.handlers newId).spcId))).current_step ∧
      (clampRS rs0
        (targetTokenCount (st.spcStore (st.handlers newId).spcId))).current_step ≤
        targetTokenCount (st.spcStore (st.handlers newId).spcId)) ∧
    -- (iv) bound prefill on the prefix-match path
    (∀ st0 : LockedState, ∀ h0 : ContextHandler, ∀ inputs0 : List Token,
      ∀ ps0 : Int, ∀ st2 : LockedState, ∀ calls : List ExecCall,
      st0.handler = some h0 →
      effectiveStep st0.exec ps0 < (st0.exec.tokens.length : Int) →
      LockedLlmExecutor.Prefill st0 inputs0 ps0 = .ok (st2, calls) →
      ∀ s' : Int,
        (ExecCall.setCurrentStep s' ∈ calls ∨
          ∃ t, ExecCall.prefill t s' ∈ calls) →
        s' ≤ (st0.exec.tokens.length : Int) ∧
          (0 ≤ effectiveStep st0.exec ps0 → 0 ≤ s')) := by
  refine ⟨?_, ?_, ?_, ?_⟩
  · intro st curId newId cfg rs0 hcur hneq hspc hc hr hac han
    have hns : st.currentHandlerId ≠ some newId := by
      rw [hcur]
      simp [hneq]
    have hc0 : (0 : Int) ≤ (st.exec.tokens.length : Int) :=
      Int.natCast_nonneg _
    unfold ResourceManager.AcquireExecutorWithContextHandler
    rw [if_neg hns]
    simp only [hc, hr, hcur, if_pos hspc]
    simp only [AcquireAudioStep, AcquireAudioSnapshot, AcquireAudioRestore,
      AcquireSameSpcSwitch, updH]
    simp only [hneq, if_false, if_pos rfl]
    simp [hac, han, swEvents, swStep, hneq]
    exact ⟨clampRS_nonneg rs0 _ hc0, clampRS_le rs0 _ hc0⟩
  · intro st newId cfg rs0 hcur hc hr
    have hns : st.currentHandlerId ≠ some newId := by
      rw [hcur]
      simp
    have hc0 : 0 ≤ targetTokenCount (st.spcStore ((st.handlers newId).spcId)) :=
      targetTokenCount_nonneg _
    unfold ResourceManager.AcquireExecutorWithContextHandler
    rw [if_neg hns]
    simp only [hc, hr, hcur]
    simp only [AcquireAudioStep, AcquireRestoreNew, updH, updS]
    by_cases hfr : (targetTokenCount (st.spcStore ((st.handlers newId).spcId))
          == 0 &&
        (clampRS rs0 (targetTokenCount
          (st.spcStore ((st.handlers newId).spcId)))).current_step == 0 &&
        !(clampRS rs0 (targetTokenCount
          (st.spcStore ((st.handlers newId).spcId)))).ran_decode) = true
    · rw [if_pos hfr]
      refine ⟨Or.inl ?_, ?_, clampRS_nonneg rs0 _ hc0, clampRS_le rs0 _ hc0⟩
      · simp [swEvents]
      · simp [swStep]
    · rw [if_neg hfr]
      refine ⟨Or.inr ?_, ?_, clampRS_nonneg rs0 _ hc0, clampRS_le rs0 _ hc0⟩
      · simp [swEvents]
      · simp [swStep]
  · intro st curId newId cfg rs0 hcur hneq hspc hc hr hac han
    have hns : st.currentHandlerId ≠ some newId := by
      rw [hcur]
      simp [hneq]
    have hc0 : 0 ≤ targetTokenCount (st.spcStore ((st.handlers newId).spcId)) :=
      targetTokenCount_nonneg _
    unfold ResourceManager.AcquireExecutorWithContextHandler
    rw [if_neg hns]
    simp only [hc, hr, hcur, if_neg hspc]
    simp only [AcquireAudioStep, AcquireAudioSnapshot, AcquireAudioRestore,
      AcquireRestoreNew, AcquireSaveCurrent, updH, updS]
    have hneq2 : ¬(newId = curId) := fun hx => hneq hx.symm
    have hspc2 : ¬((st.handlers newId).spcId = (st.handlers curId).spcId) :=
      fun hx => hspc hx.symm
    simp only [hneq2, if_false, hspc2]
    by_cases hfr : (targetTokenCount (st.spcStore ((st.handlers newId).spcId))
          == 0 &&
        (clampRS rs0 (targetTokenCount
          (st.spcStore ((st.handlers newId).spcId)))).current_step == 0 &&
        !(clampRS rs0 (targetTokenCount
          (st.spcStore ((st.handlers newId).spcId)))).ran_decode) = true
    · rw [if_pos hfr]
      simp [hac, han, swStep, hneq, hneq2, updH]
      exact ⟨clampRS_nonneg rs0 _ hc0, clampRS_le rs0 _ hc0⟩
    · rw [if_neg hfr]
      simp [hac, han, swStep, hneq, hneq2, updH]
      exact ⟨clampRS_nonneg rs0 _ hc0, clampRS_le rs0 _ hc0⟩
  · intro st0 h0 inputs0 ps0 st2 calls hh0 hlt hok
    exact Prefill_calls_bounded st0 h0 inputs0 ps0 st2 calls hh0 hlt hok

/-- A concrete same-shared-cell pair for the C4 witness: handler 0 active,
handler 1 suspended on the same cell with an out-of-range stored step 99. -/
def rmSameSpcState : RMState :=
  { exec := { tokens := [1, 2, 3]
              step := 3
              ran_decode := true
              config := { output_heads := 1, tokens_per_decode := 1 }
              lora_id := none }
    audioExec := none
    handlers := fun i =>
      if i = 0 then
        { spcId := 0
          runtime_config := none
          runtime_state := none
          audio_context := none }
      else
        { spcId := 0
          runtime_config := some { output_heads := 1, tokens_per_decode := 1 }
          runtime_state := some { current_step := 99, ran_decode := true }
          audio_context := none }
    currentHandlerId := some 0
    spcStore := fun _ => none
    nextSpcId := 1 }

/-- Witness for C4 (amended): switching to the sibling whose stored step is
99 while the shared context holds 3 tokens installs the clamped step 3. -/
theorem current_step_clamp_spec_witness :
    swEvents (ResourceManager.AcquireExecutorWithContextHandler
        rmSameSpcState 1) =
      some [.updateRuntimeConfig { output_heads := 1, tokens_per_decode := 1 },
        .updateRuntimeState { current_step := 3, ran_decode := true }] ∧
    swStep (ResourceManager.AcquireExecutorWithContextHandler
        rmSameSpcState 1) = some 3 :=
  let full := current_step_clamp_spec.1 rmSameSpcState 0 1
    { output_heads := 1, tokens_per_decode := 1 }
    { current_step := 99, ran_decode := true }
    (by decide) (by decide) (by decide) (by decide) (by decide) (by decide)
    (by decide)
  ⟨full.1, full.2.1⟩

/-! ## C5 -/

/-- Counterexample for C5 as stated: the incoming handler's stored
current_step is 5 (not 0), so by the claim the executor should restore an
assembled LlmContext; but the source evaluates the freshness test AFTER
clamping (resource_manager.cc:770-789), the clamp takes 5 to 0 because the
retrieved processed context holds 0 tokens, and the fresh
create-new-context path is taken. -/
theorem fresh_context_decision_counterexample :
    (rmWitnessState.handlers 1).runtime_state =
      some { current_step := 5, ran_decode := false } ∧
    swEvents (ResourceManager.AcquireExecutorWithContextHandler
        rmWitnessState 1) =
      some [.createNewContext none { output_heads := 2, tokens_per_decode := 1 },
        .updateRuntimeState { current_step := 0, ran_decode := false }] := by
  decide

/-- C5 (amended): when the incoming handler does not share the active
handler's processed context, the executor is given a freshly created empty
context built from the handler's runtime config (and the saved lora id
when a processed context exists) followed by a runtime-state update if and
only if the retrieved processed-token count is 0, the current step AFTER
clamping into [0, that count] is 0, and ran_decode is false; in every
other case the executor restores an LlmContext assembled from the
handler's retrieved processed context, runtime config, and clamped runtime
state. -/
theorem fresh_context_decision_spec (st : RMState) (newId : Nat)
    (cfg : RuntimeConfig) (rs0 : RuntimeState)
    (hc : (st.handlers newId).runtime_config = some cfg)
    (hr : (st.handlers newId).runtime_state = some rs0)
    (hcases : st.currentHandlerId = none ∨
      ∃ curId, st.currentHandlerId = some curId ∧ curId ≠ newId ∧
        (st.handlers curId).spcId ≠ (st.handlers newId).spcId ∧
        (st.handlers curId).audio_context = none)
    (han : (st.handlers newId).audio_context = none) :
    (((targetTokenCount (st.spcStore ((st.handlers newId).spcId)) == 0 &&
        (clampRS rs0 (targetTokenCount
          (st.spcStore ((st.handlers newId).spcId)))).current_step == 0 &&
        !(clampRS rs0 (targetTokenCount
          (st.spcStore ((st.handlers newId).spcId)))).ran_decode) = true →
      swEvents (ResourceManager.AcquireExecutorWithContextHandler st newId) =
        some [.createNewContext
          ((st.spcStore ((st.handlers newId).spcId)).bind
            (fun pc => pc.lora_id)) cfg,
          .updateRuntimeState (clampRS rs0 (targetTokenCount
            (st.spcStore ((st.handlers newId).spcId))))]) ∧
    (¬((targetTokenCount (st.spcStore ((st.handlers newId).spcId)) == 0 &&
        (clampRS rs0 (targetTokenCount
          (st.spcStore ((st.handlers newId).spcId)))).current_step == 0 &&
        !(clampRS rs0 (targetTokenCount
          (st.spcStore ((st.handlers newId).spcId)))).ran_decode) = true) →
      swEvents (ResourceManager.AcquireExecutorWithContextHandler st newId) =
        some [.restoreContext (st.spcStore ((st.handlers newId).spcId)) cfg
          (clampRS rs0 (targetTokenCount
            (st.spcStore ((st.handlers newId).spcId))))])) := by
  rcases hcases with hcur | ⟨curId, hcur, hneq, hspc, hac⟩
  · have hns : st.currentHandlerId ≠ some newId := by
      rw [hcur]
      simp
    constructor <;> intro hfr <;>
      (unfold ResourceManager.AcquireExecutorWithContextHandler
       rw [if_neg hns]
       simp only [hc, hr, hcur]
       simp only [AcquireAudioStep, AcquireRestoreNew, updH, updS])
    · rw [if_pos hfr]
      simp [swEvents]
    · rw [if_neg hfr]
      simp [swEvents]
  · have hns : st.currentHandlerId ≠ some newId := by
      rw [hcur]
      simp [hneq]
    have hneq2 : ¬(newId = curId) := fun hx => hneq hx.symm
    have hspc2 : ¬((st.handlers newId).spcId = (st.handlers curId).spcId) :=
      fun hx => hspc hx.symm
    constructor <;> intro hfr <;>
      (unfold ResourceManager.AcquireExecutorWithContextHandler
       rw [if_neg hns]
       simp only [hc, hr, hcur, if_neg hspc]
       simp only [AcquireAudioStep, AcquireAudioSnapshot, AcquireAudioRestore,
         AcquireRestoreNew, AcquireSaveCurrent, updH, updS]
       simp only [hneq2, if_false, hspc2])
    · rw [if_pos hfr]
      simp [hac, han, swEvents, hneq, hneq2, updH]
    · rw [if_neg hfr]
      simp [hac, han, swEvents, hneq, hneq2, updH]

/-- Witness for C5 (amended): the counterexample state again — 0 retrieved
tokens clamp the stored step 5 to 0 and the fresh path is taken; and a
state with a non-empty retrieved context takes the restore path. -/
theorem fresh_context_decision_spec_witness :
    swEvents (ResourceManager.AcquireExecutorWithContextHandler
        rmWitnessState 1) =
      some [.createNewContext none { output_heads := 2, tokens_per_decode := 1 },
        .updateRuntimeState { current_step := 0, ran_decode := false }] :=
  (fresh_context_decision_spec rmWitnessState 1
      { output_heads := 2, tokens_per_decode := 1 }
      { current_step := 5, ran_decode := false }
      (by decide) (by decide)
      (Or.inr ⟨0, by decide, by decide, by decide, by decide⟩)
      (by decide)).1 (by decide)

/-! ## C9 -/

/-- The audio operations within a context-switch trace. -/
def isAudioEvent : SwitchEvent → Bool
  | .audioSnapshot _ => true
  | .audioRestore _ => true
  | _ => false

/-- A manager state with no previously active handler whose incoming
handler 1 carries an audio context, while an audio executor context
exists. -/
def rmNoCurAudioState : RMState :=
  { exec := { tokens := []
              step := 0
              ran_decode := false
              config := { output_heads := 1, tokens_per_decode := 1 }
              lora_id := none }
    audioExec := some 5
    handlers := fun i =>
      if i = 0 then
        { spcId := 0
          runtime_config := none
          runtime_state := none
          audio_context := none }
      else
        { spcId := 1
          runtime_config := some { output_heads := 1, tokens_per_decode := 1 }
          runtime_state := some { current_step := 0, ran_decode := false }
          audio_context := some 7 }
    currentHandlerId := none
    spcStore := fun _ => none
    nextSpcId := 2 }

/-- Counterexample for C9 as stated: switching to handler 1, which has an
audio context, with no previously active handler performs NO audio restore
(the whole audio block at resource_manager.cc:819-838 is guarded by
`current_handler_ != nullptr`): the trace has no audio events and the
audio executor keeps its old context 5 instead of receiving 7. -/
theorem audio_switch_counterexample :
    (rmNoCurAudioState.handlers 1).audio_context = some 7 ∧
    (swEvents (ResourceManager.AcquireExecutorWithContextHandler
        rmNoCurAudioState 1)).map (List.filter isAudioEvent) = some [] ∧
    swAudioExec (ResourceManager.AcquireExecutorWithContextHandler
        rmNoCurAudioState 1) = some (some 5) := by
  decide

/-- C9 (amended): the audio parallel step runs only when a handler was
previously active.  In that case, on a switch to a handler with a distinct
processed context: when the outgoing handler has an audio context the
audio executor's context is snapshotted into it, and when the incoming
handler has an audio context a clone of it is restored into the audio
executor — each independently of the other side.  When no handler was
previously active, no audio snapshot or restore happens at all, even if
the incoming handler has an audio context. -/
theorem audio_switch_spec :
    -- (a) no previously active handler: no audio transfer
    (∀ st : RMState, ∀ newId : Nat, ∀ cfg : RuntimeConfig,
      ∀ rs0 : RuntimeState,
      st.currentHandlerId = none →
      (st.handlers newId).runtime_config = some cfg →
      (st.handlers newId).runtime_state = some rs0 →
      (swEvents (ResourceManager.AcquireExecutorWithContextHandler st
        newId)).map (List.filter isAudioEvent) = some [] ∧
      swAudioExec (ResourceManager.AcquireExecutorWithContextHandler st
        newId) = some st.audioExec) ∧
    -- (b) previously active handler, both sides with audio
    (∀ st : RMState, ∀ curId newId : Nat, ∀ cfg : RuntimeConfig,
      ∀ rs0 : RuntimeState, ∀ a ac na : AudioContext,
      st.currentHandlerId = some curId → curId ≠ newId →
      (st.handlers curId).spcId ≠ (st.handlers newId).spcId →
      (st.handlers newId).runtime_config = some cfg →
      (st.handlers newId).runtime_state = some rs0 →
      st.audioExec = some a →
      (st.handlers curId).audio_context = some ac →
      (st.handlers newId).audio_context = some na →
      (swEvents (ResourceManager.AcquireExecutorWithContextHandler st
        newId)).map (List.filter isAudioEvent) =
        some [.audioSnapshot a, .audioRestore na] ∧
      (swHandlerAt (ResourceManager.AcquireExecutorWithContextHandler st
        newId) curId).map (fun h => h.audio_context) = some (some a) ∧
      swAudioExec (ResourceManager.AcquireExecutorWithContextHandler st
        newId) = some (some na)) ∧
    -- (c) previously active handler without audio, incoming with audio
    (∀ st : RMState, ∀ curId newId : Nat, ∀ cfg : RuntimeConfig,
      ∀ rs0 : RuntimeState, ∀ a na : AudioContext,
      st.currentHandlerId = some curId → curId ≠ newId →
      (st.handlers curId).spcId ≠ (st.handlers newId).spcId →
      (st.handlers newId).runtime_config = some cfg →
      (st.handlers newId).runtime_state = some rs0 →
      st.audioExec = some a →
      (st.handlers curId).audio_context = none →
      (st.handlers newId).audio_context = some na →
      (swEvents (ResourceManager.AcquireExecutorWithContextHandler st
        newId)).map (List.filter isAudioEvent) = some [.audioRestore na] ∧
      swAudioExec (ResourceManager.AcquireExecutorWithContextHandler st
        newId) = some (some na)) ∧
    -- (d) previously active handler with audio, incoming without
    (∀ st : RMState, ∀ curId newId : Nat, ∀ cfg : RuntimeConfig,
      ∀ rs0 : RuntimeState, ∀ a ac : AudioContext,
      st.currentHandlerId = some curId → curId ≠ newId →
      (st.handlers curId).spcId ≠ (st.handlers newId).spcId →
      (st.handlers newId).runtime_config = some cfg →
      (st.handlers newId).runtime_state = some rs0 →
      st.audioExec = some a →
      (st.handlers curId).audio_context = some ac →
      (st.handlers newId).audio_context = none →
      (swEvents (ResourceManager.AcquireExecutorWithContextHandler st
        newId)).map (List.filter isAudioEvent) = some [.audioSnapshot a] ∧
      (swHandlerAt (ResourceManager.AcquireExecutorWithContextHandler st
        newId) curId).map (fun h => h.audio_context) = some (some a) ∧
      swAudioExec (ResourceManager.AcquireExecutorWithContextHandler st
        newId) = some (some a)) := by
  refine ⟨?_, ?_, ?_, ?_⟩
  · intro st newId cfg rs0 hcur hc hr
    have hns : st.currentHandlerId ≠ some newId := by
      rw [hcur]
      simp
    unfold ResourceManager.AcquireExecutorWithContextHandler
    rw [if_neg hns]
    simp only [hc, hr, hcur]
    simp only [AcquireAudioStep, AcquireRestoreNew, updH, updS]
    by_cases hfr : (targetTokenCount (st.spcStore ((st.handlers newId).spcId))
          == 0 &&
        (clampRS rs0 (targetTokenCount
          (st.spcStore ((st.handlers newId).spcId)))).current_step == 0 &&
        !(clampRS rs0 (targetTokenCount
          (st.spcStore ((st.handlers newId).spcId)))).ran_decode) = true
    · rw [if_pos hfr]
      simp [swEvents, swAudioExec, isAudioEvent]
    · rw [if_neg hfr]
      simp [swEvents, swAudioExec, isAudioEvent]
  · intro st curId newId cfg rs0 a ac na hcur hneq hspc hc hr haex hca hna
    have hns : st.currentHandlerId ≠ some newId := by
      rw [hcur]
      simp [hneq]
    have hneq2 : ¬(newId = curId) := fun hx => hneq hx.symm
    have hspc2 : ¬((st.handlers newId).spcId = (st.handlers curId).spcId) :=
      fun hx => hspc hx.symm
    unfold ResourceManager.AcquireExecutorWithContextHandler
    rw [if_neg hns]
    simp only [hc, hr, hcur, if_neg hspc]
    simp only [AcquireAudioStep, AcquireAudioSnapshot, AcquireAudioRestore,
      AcquireRestoreNew, AcquireSaveCurrent, updH, updS]
    simp only [hneq2, if_false, hspc2]
    by_cases hfr : (targetTokenCount (st.spcStore ((st.handlers newId).spcId))
          == 0 &&
        (clampRS rs0 (targetTokenCount
          (st.spcStore ((st.handlers newId).spcId)))).current_step == 0 &&
        !(clampRS rs0 (targetTokenCount
          (st.spcStore ((st.handlers newId).spcId)))).ran_decode) = true
    · rw [if_pos hfr]
      simp [haex, hca, hna, swEvents, swAudioExec, swHandlerAt, isAudioEvent,
        hneq, hneq2, updH]
    · rw [if_neg hfr]
      simp [haex, hca, hna, swEvents, swAudioExec, swHandlerAt, isAudioEvent,
        hneq, hneq2, updH]
  · intro st curId newId cfg rs0 a na hcur hneq hspc hc hr haex hca hna
    have hns : st.currentHandlerId ≠ some newId := by
      rw [hcur]
      simp [hneq]
    have hneq2 : ¬(newId = curId) := fun hx => hneq hx.symm
    have hspc2 : ¬((st.handlers newId).spcId = (st.handlers curId).spcId) :=
      fun hx => hspc hx.symm
    unfold ResourceManager.AcquireExecutorWithContextHandler
    rw [if_neg hns]
    simp only [hc, hr, hcur, if_neg hspc]
    simp only [AcquireAudioStep, AcquireAudioSnapshot, AcquireAudioRestore,
      AcquireRestoreNew, AcquireSaveCurrent, updH, updS]
    simp only [hneq2, if_false, hspc2]
    by_cases hfr : (targetTokenCount (st.spcStore ((st.handlers newId).spcId))
          == 0 &&
        (clampRS rs0 (targetTokenCount
          (st.spcStore ((st.handlers newId).spcId)))).current_step == 0 &&
        !(clampRS rs0 (targetTokenCount
          (st.spcStore ((st.handlers newId).spcId)))).ran_decode) = true
    · rw [if_pos hfr]
      simp [haex, hca, hna, swEvents, swAudioExec, isAudioEvent, hneq,
        hneq2, updH]
    · rw [if_neg hfr]
      simp [haex, hca, hna, swEvents, swAudioExec, isAudioEvent, hneq,
        hneq2, updH]
  · intro st curId newId cfg rs0 a ac hcur hneq hspc hc hr haex hca hna
    have hns : st.currentHandlerId ≠ some newId := by
      rw [hcur]
      simp [hneq]
    have hneq2 : ¬(newId = curId) := fun hx => hneq hx.symm
    have hspc2 : ¬((st.handlers newId).spcId = (st.handlers curId).spcId) :=
      fun hx => hspc hx.symm
    unfold ResourceManager.AcquireExecutorWithContextHandler
    rw [if_neg hns]
    simp only [hc, hr, hcur, if_neg hspc]
    simp only [AcquireAudioStep, AcquireAudioSnapshot, AcquireAudioRestore,
      AcquireRestoreNew, AcquireSaveCurrent, updH, updS]
    simp only [hneq2, if_false, hspc2]
    by_cases hfr : (targetTokenCount (st.spcStore ((st.handlers newId).spcId))
          == 0 &&
        (clampRS rs0 (targetTokenCount
          (st.spcStore ((st.handlers newId).spcId)))).current_step == 0 &&
        !(clampRS rs0 (targetTokenCount
          (st.spcStore ((st.handlers newId).spcId)))).ran_decode) = true
    · rw [if_pos hfr]
      simp [haex, hca, hna, swEvents, swAudioExec, swHandlerAt, isAudioEvent,
        hneq, hneq2, updH]
    · rw [if_neg hfr]
      simp [haex, hca, hna, swEvents, swAudioExec, swHandlerAt, isAudioEvent,
        hneq, hneq2, updH]

/-- A manager state where handler 0 is active and the incoming handler 1
has an audio context and a distinct processed context. -/
def rmAudioState : RMState :=
  { exec := { tokens := []
              step := 0
              ran_decode := false
              config := { output_heads := 1, tokens_per_decode := 1 }
              lora_id := none }
    audioExec := some 5
    handlers := fun i =>
      if i = 0 then
        { spcId := 0
          runtime_config := none
          runtime_state := none
          audio_context := none }
      else
        { spcId := 1
          runtime_config := some { output_heads := 1, tokens_per_decode := 1 }
          runtime_state := some { current_step := 0, ran_decode := false }
          audio_context := some 7 }
    currentHandlerId := some 0
    spcStore := fun _ => none
    nextSpcId := 2 }

/-- Witness for C9 (amended): with handler 0 previously active and having
no audio context, switching to handler 1 (audio context 7) restores 7 into
the audio executor, with the restore as the only audio event. -/
theorem audio_switch_spec_witness :
    (swEvents (ResourceManager.AcquireExecutorWithContextHandler
        rmAudioState 1)).map (List.filter isAudioEvent) =
      some [.audioRestore 7] ∧
    swAudioExec (ResourceManager.AcquireExecutorWithContextHandler
        rmAudioState 1) = some (some 7) :=
  audio_switch_spec.2.2.1 rmAudioState 0 1
    { output_heads := 1, tokens_per_decode := 1 }
    { current_step := 0, ran_decode := false } 5 7
    (by decide) (by decide) (by decide) (by decide) (by decide) (by decide)
    (by decide) (by decide)

/-! ## C6 -/

/-- A terminal outcome that is not a success: a non-OK status, or a task
state among Failed, Cancelled, DependentTaskFailed,
DependentTaskCancelled. -/
def isTerminalFailure : CbOutcome → Bool
  | .errorStatus => true
  | .responses .failed => true
  | .responses .cancelled => true
  | .responses .depFailed => true
  | .responses .depCancelled => true
  | _ => false

/-- C6: every terminal failure outcome delivered to one of the session's
own wrapping callbacks — a non-OK status or a task state among Failed,
Cancelled, DependentTaskFailed, DependentTaskCancelled — clears
`last_task_ids`, for the synchronous prefill and decode callbacks, the
async decode wrapping callback, and the streaming prefill callback; and
every successful prefill, decode and clone submission rewrites
`last_task_ids` to exactly the singleton of the new task id. -/
theorem last_task_ids_reset_spec :
    (∀ last : List TaskId, ∀ o : CbOutcome, isTerminalFailure o = true →
      SessionAdvanced.RunPrefillSyncCallback last o = [] ∧
      SessionAdvanced.RunDecodeSyncCallback last o = [] ∧
      SessionAdvanced.RunDecodeAsyncWrappedCallback last o = [] ∧
      SessionAdvanced.GenerateContentStreamPrefillCallback last o = []) ∧
    (∀ st : SessionSt, ∀ alive : Bool, ∀ tid : TaskId,
      ∀ st2 : SessionSt, ∀ task : SubmittedTask,
      SessionAdvanced.RunPrefillAsync st alive tid = .ok (st2, task) →
      st2.last_task_ids = [tid]) ∧
    (∀ st : SessionSt, ∀ alive apt ttn : Bool, ∀ tid did : TaskId,
      ∀ st2 : SessionSt, ∀ tasks : List SubmittedTask,
      SessionAdvanced.RunDecodeAsync st alive apt ttn tid did =
        .ok (st2, tasks) →
      st2.last_task_ids = [did]) ∧
    (∀ st : SessionSt, ∀ alive : Bool, ∀ tid : TaskId,
      ∀ parent clone : SessionSt, ∀ task : SubmittedTask,
      SessionAdvanced.CloneAsync st alive tid = .ok (parent, clone, task) →
      parent.last_task_ids = [tid] ∧ clone.last_task_ids = [tid]) := by
  refine ⟨?_, ?_, ?_, ?_⟩
  · intro last o ho
    cases o with
    | errorStatus =>
      simp [SessionAdvanced.RunPrefillSyncCallback,
        SessionAdvanced.RunDecodeSyncCallback,
        SessionAdvanced.RunDecodeAsyncWrappedCallback,
        SessionAdvanced.GenerateContentStreamPrefillCallback]
    | responses ts =>
      cases ts <;> simp_all [isTerminalFailure,
        SessionAdvanced.RunPrefillSyncCallback,
        SessionAdvanced.RunDecodeSyncCallback,
        SessionAdvanced.RunDecodeAsyncWrappedCallback,
        SessionAdvanced.GenerateContentStreamPrefillCallback,
        IsTaskEndState]
  · intro st alive tid st2 task hok
    unfold SessionAdvanced.RunPrefillAsync at hok
    cases alive with
    | false => simp at hok
    | true =>
      simp only [Bool.not_true, if_false] at hok
      cases hok
      rfl
  · intro st alive apt ttn tid did st2 tasks hok
    unfold SessionAdvanced.RunDecodeAsync at hok
    by_cases hst : st.session_state ≠ SessionState.prefilled
    · rw [if_pos hst] at hok
      exact absurd hok (by simp)
    · rw [if_neg hst] at hok
      cases alive with
      | false => simp at hok
      | true =>
        simp only [Bool.not_true, if_false] at hok
        cases hok
        rfl
  · intro st alive tid parent clone task hok
    unfold SessionAdvanced.CloneAsync at hok
    cases alive with
    | false => simp at hok
    | true =>
      simp only [Bool.not_true, if_false] at hok
      cases hok
      exact ⟨rfl, rfl⟩

/-- Witness for C6: a DependentTaskFailed outcome clears the pending ids
[4, 5] in all four wrapping callbacks, and concrete prefill, decode and
clone submissions leave the singleton of the new task id. -/
theorem last_task_ids_reset_spec_witness :
    (SessionAdvanced.RunPrefillSyncCallback [4, 5]
        (.responses .depFailed) = [] ∧
      SessionAdvanced.RunDecodeSyncCallback [4, 5]
        (.responses .depFailed) = [] ∧
      SessionAdvanced.RunDecodeAsyncWrappedCallback [4, 5]
        (.responses .depFailed) = [] ∧
      SessionAdvanced.GenerateContentStreamPrefillCallback [4, 5]
        (.responses .depFailed) = []) ∧
    ({ session_state := SessionState.prefilled,
        last_task_ids := [9] } : SessionSt).last_task_ids = [9] :=
  ⟨(last_task_ids_reset_spec.1 [4, 5] (.responses .depFailed) (by decide)),
    (last_task_ids_reset_spec.2.1
      { session_state := SessionState.fresh, last_task_ids := [4] }
      true 9
      { session_state := SessionState.prefilled, last_task_ids := [9] }
      { id := 9, deps := [4] } rfl)⟩

/-! ## C8 -/

/-- Counterexample for C8 as stated: calling RunDecodeAsync on a Fresh
session fails with an Internal error ("Session is not prefilled yet.",
session_advanced.cc:288-290), not with the FailedPrecondition kind the
claim names. -/
theorem decode_not_prefilled_counterexample :
    SessionAdvanced.RunDecodeAsync
      { session_state := SessionState.fresh, last_task_ids := [] }
      true false false 0 1 = .error .internal ∧
    Err.internal ≠ Err.failedPrecondition :=
  ⟨rfl, by decide⟩

/-- C8 (amended): calling RunDecodeAsync (and therefore RunDecode) on a
session whose state is not Prefilled enqueues no task — the error return
happens before any task is created — and fails with an Internal error
(where the spec's taxonomy would assign FailedPrecondition). -/
theorem decode_not_prefilled_spec (st : SessionSt) (alive apt ttn : Bool)
    (tid did : TaskId)
    (hst : st.session_state ≠ SessionState.prefilled) :
    SessionAdvanced.RunDecodeAsync st alive apt ttn tid did =
      .error .internal := by
  unfold SessionAdvanced.RunDecodeAsync
  rw [if_pos hst]

/-- Witness for C8 (amended): the Fresh session is refused. -/
theorem decode_not_prefilled_spec_witness :
    SessionAdvanced.RunDecodeAsync
      { session_state := SessionState.decoded, last_task_ids := [3] }
      true true true 7 8 = .error .internal :=
  decode_not_prefilled_spec
    { session_state := SessionState.decoded, last_task_ids := [3] }
    true true true 7 8 (by decide)

/-! ## C10 -/

/-- C10: RunTextScoringAsync submits the scoring task with the session's
current `last_task_ids` as dependencies but leaves the whole session state
— both `last_task_ids` and the session state — unchanged; hence a
scoring task id never enters the dependency chain: any later prefill
submitted from the resulting state does not depend on it. -/
theorem text_scoring_frame_spec (st : SessionSt) (tid : TaskId)
    (htid : tid ∉ st.last_task_ids) :
    SessionAdvanced.RunTextScoringAsync st true 1 tid =
      .ok (st, { id := tid, deps := st.last_task_ids }) ∧
    (∀ st2 : SessionSt, ∀ task : SubmittedTask,
      SessionAdvanced.RunTextScoringAsync st true 1 tid = .ok (st2, task) →
      ∀ tid2 : TaskId, ∀ st3 : SessionSt, ∀ task2 : SubmittedTask,
      SessionAdvanced.RunPrefillAsync st2 true tid2 = .ok (st3, task2) →
      tid ∉ task2.deps) := by
  constructor
  · rfl
  · intro st2 task hok tid2 st3 task2 hok2
    unfold SessionAdvanced.RunTextScoringAsync at hok
    simp only [if_neg (by simp : ¬(1 ≠ 1)), Bool.not_true, if_false] at hok
    cases hok
    unfold SessionAdvanced.RunPrefillAsync at hok2
    simp only [Bool.not_true, if_false] at hok2
    cases hok2
    simpa using htid

/-- Witness for C10: scoring from a Decoded session with pending id 4
depends on [4], changes nothing, and a following prefill does not depend
on the scoring task id 6. -/
theorem text_scoring_frame_spec_witness :
    SessionAdvanced.RunTextScoringAsync
      { session_state := SessionState.decoded, last_task_ids := [4] }
      true 1 6 =
      .ok ({ session_state := SessionState.decoded, last_task_ids := [4] },
        { id := 6, deps := [4] }) :=
  (text_scoring_frame_spec
    { session_state := SessionState.decoded, last_task_ids := [4] }
    6 (by decide)).1

end LiteRTLM
